import Mathlib

/-!
# Telemetry pipeline of the nRF9151 battery-less cellular IoT firmware

A shallow embedding of `src/app_sensors.c`, `src/fuel_gauge.c`, `src/main.c` and
`src/location_tracking.c`.

* C `int`, `int32_t`, `int64_t` values are `Int`; `uint32_t` counters are `Nat` reduced
  modulo `2 ^ 32` where the C code increments them.
* `float` and `double` values are elements of two abstract types `F` and `D`; every
  floating-point operation the sources use is a field of `FloatEnv`, so the theorems hold for
  every interpretation of floating point.
* The zcbor encoder, the Golioth client, the modem and the sensor drivers are external
  libraries.  Calls into them are either fields of an interface record (`Zcbor`) or inputs
  of the step they occur in (`modem_reading`, `gauge_sample`, `cycle_env`).
* Static variables are fields of an explicit state record which every function returns.
* An automatic variable that is read without having been written is an input of the step
  (`battery_locals`).
* `LOG_ERR` lines are collected in a list; other log levels are not modelled.
-/

namespace Telemetry

/-! ## External types -/

/-- Status codes of the Golioth SDK (`enum golioth_status`); the sources name the first four. -/
inductive golioth_status where
  | GOLIOTH_OK
  | GOLIOTH_ERR_FAIL
  | GOLIOTH_ERR_QUEUE_FULL
  | GOLIOTH_ERR_NULL
  | GOLIOTH_ERR_OTHER (code : Nat)
deriving DecidableEq, Repr

open golioth_status

/-- Zephyr `struct sensor_value`: integer part and millionths. -/
structure sensor_value where
  val1 : Int
  val2 : Int
deriving DecidableEq, Repr

/-- The sensor channels read from the nPM1300 charger in `fuel_gauge.c`. -/
inductive sensor_channel where
  | SENSOR_CHAN_GAUGE_VOLTAGE
  | SENSOR_CHAN_GAUGE_AVG_CURRENT
  | SENSOR_CHAN_GAUGE_TEMP
  | SENSOR_CHAN_GAUGE_DESIRED_CHARGING_CURRENT
  | SENSOR_CHAN_NPM1300_CHARGER_STATUS
deriving DecidableEq, Repr

open sensor_channel

/-- Floating-point capability of the target.  `F` is C `float`, `D` is C `double`.  The
fields are the operations the sources apply to floating-point values, including the Zephyr
`sensor_value` conversion helpers and the in-memory image of a `double`. -/
structure FloatEnv (F D : Type) where
  /-- The literal `0.0f`. -/
  zero : F
  /-- Conversion of an integer to `float`; also used for the literals `1000.f` and `10.f`. -/
  of_int : Int → F
  /-- Division of two `float`s. -/
  div : F → F → F
  /-- Unary minus. -/
  neg : F → F
  /-- The cast `(int32_t) x`. -/
  to_int32 : F → Int
  /-- Promotion of a `float` to `double`. -/
  to_double : F → D
  /-- Zephyr `sensor_value_to_float`. -/
  sensor_value_to_float : sensor_value → F
  /-- Zephyr `sensor_value_from_double(val, inp)`: from the content of `*val` before the call
  and `inp`, the return value and the content of `*val` after the call.  The helper may
  refuse `inp` and leave `*val` as it was. -/
  sensor_value_from_double : sensor_value → D → Int × sensor_value
  /-- Zephyr `sensor_value_to_double`. -/
  sensor_value_to_double : sensor_value → D
  /-- The IEEE-754 binary64 image of a `double`, as a number below `2 ^ 64`. -/
  f64_bits : D → Nat

/-- Conversion of a C integer to `int32_t`: reduction modulo `2 ^ 32 = 4294967296` into
`[-2 ^ 31, 2 ^ 31)`, where `2 ^ 31 = 2147483648`.  It is the identity on values that already
are `int32_t`. -/
def to_int32 (x : Int) : Int := (x + 2147483648) % 4294967296 - 2147483648

/-- Increment of a `uint32_t`: addition modulo `2 ^ 32 = 4294967296`. -/
def u32_incr (x : Nat) : Nat := (x + 1) % 4294967296

/-- Interface of the zcbor encoder as used by `app_sensors.c`.  `σ` is the encoder state
(`zcbor_state_t` together with the buffer it writes to).  Every encode call returns its `bool`
result and the state it leaves behind. -/
structure Zcbor (σ D : Type) where
  /-- The macro `ZCBOR_STATE_E(name, num_backups, payload, payload_size, elem_count)`. -/
  new_encode_state : (num_backups payload_size elem_count : Nat) → σ
  /-- The call `zcbor_map_start_encode(state, max_num)`. -/
  map_start_encode : σ → Nat → Bool × σ
  /-- The call `zcbor_map_end_encode(state, max_num)`. -/
  map_end_encode : σ → Nat → Bool × σ
  /-- The call `zcbor_tstr_put_lit(state, lit)`. -/
  tstr_put_lit : σ → String → Bool × σ
  /-- The call `zcbor_int32_put(state, input)`. -/
  int32_put : σ → Int → Bool × σ
  /-- The call `zcbor_float64_put(state, input)`. -/
  float64_put : σ → D → Bool × σ
  /-- The bytes of the buffer from its start up to `state->payload`. -/
  written : σ → List Nat

/-- A chain `c1(zse) && c2(zse) && ...`: the calls run in order until the first one that
returns false; the calls after it are not made. -/
def and_chain {σ : Type} : List (σ → Bool × σ) → σ → Bool × σ
  | [], s => (true, s)
  | f :: fs, s => if (f s).1 then and_chain fs (f s).2 else (false, (f s).2)

/-! ## fuel_gauge.c -/

/-- The record `struct battery_data` of `fuel_gauge.h`. -/
structure battery_data (F : Type) where
  voltage : F
  current : F
  temp : F
  soc : F
  tte : F
  ttf : F

/-- Static variables of `fuel_gauge.c`. -/
structure fuel_gauge_state (F : Type) where
  vbus_connected : Bool
  initialized : Bool
  max_charge_current : F
  term_charge_current : F
  ref_time : Int
  batt_data : battery_data F

/-- What the outside world supplies to one `fuel_gauge_update` call. -/
structure gauge_sample (F : Type) where
  /-- Return value of `sensor_sample_fetch(charger)`. -/
  fetch : Int
  /-- Result of `sensor_channel_get(charger, chan, &value)`: `none` for a nonzero return. -/
  channel_get : sensor_channel → Option sensor_value
  /-- Value of `k_uptime_get()` in milliseconds. -/
  now : Int
  /-- Value returned by `nrf_fuel_gauge_process`. -/
  soc : F
  /-- Value returned by `nrf_fuel_gauge_tte_get`. -/
  tte : F
  /-- Value returned by `nrf_fuel_gauge_ttf_get`. -/
  ttf : F

/-- Calls into the nRF fuel gauge library, with their arguments. -/
inductive fg_call (F : Type) where
  | process (v i T t_delta : F) (vbus : Bool)
  | tte_get
  | ttf_get (cc_charging : Bool) (i_term : F)

/-- The mask `NPM1300_CHG_STATUS_CC_MASK`, which is `BIT_MASK(3)`. -/
def NPM1300_CHG_STATUS_CC_MASK : Int := 7

/-- The helper `get_sensor_value`. -/
def get_sensor_value {F D : Type} (fe : FloatEnv F D)
    (dev : sensor_channel → Option sensor_value) (chan : sensor_channel) : F :=
  match dev chan with
  | some value => fe.sensor_value_to_float value
  | none => fe.zero

/-- Result of `fuel_gauge_update`. -/
structure fuel_gauge_result (F : Type) where
  ret : Int
  state : fuel_gauge_state F
  calls : List (fg_call F)
  errors : List String

/-- The errno value `EIO`. -/
def EIO : Int := 5

/-- The function `fuel_gauge_update(charger, vbus_connected)`.  `k_uptime_delta(&ref_time)`
returns `now - ref_time` and stores `now` in `ref_time`; the C bitwise and with the mask 7 is
the remainder modulo 8. -/
def fuel_gauge_update {F D : Type} (fe : FloatEnv F D) (st : fuel_gauge_state F)
    (inp : gauge_sample F) (vbus_connected : Bool) : fuel_gauge_result F :=
  if inp.fetch < 0 then
    { ret := - EIO, state := st, calls := [],
      errors := ["Error: Could not fetch sensor samples"] }
  else
    let voltage := get_sensor_value fe inp.channel_get SENSOR_CHAN_GAUGE_VOLTAGE
    let temp := get_sensor_value fe inp.channel_get SENSOR_CHAN_GAUGE_TEMP
    let current := get_sensor_value fe inp.channel_get SENSOR_CHAN_GAUGE_AVG_CURRENT
    let chg_status : Int :=
      fe.to_int32 (get_sensor_value fe inp.channel_get SENSOR_CHAN_NPM1300_CHARGER_STATUS)
    let cc_charging : Bool := decide (chg_status % (NPM1300_CHG_STATUS_CC_MASK + 1) ≠ 0)
    let uptime_delta : Int := inp.now - st.ref_time
    let delta : F := fe.div (fe.of_int uptime_delta) (fe.of_int 1000)
    { ret := 0,
      state :=
        { st with
          ref_time := inp.now,
          batt_data :=
            { voltage := voltage, current := current, temp := temp,
              soc := inp.soc, tte := inp.tte, ttf := inp.ttf } },
      calls :=
        [fg_call.process voltage current temp delta vbus_connected,
         fg_call.tte_get,
         fg_call.ttf_get cc_charging (fe.neg st.term_charge_current)],
      errors := [] }

/-- The function `get_battery_data(data)`: the return value of `fuel_gauge_update` is
dropped and `*data = batt_data` is returned in the `state`. -/
def get_battery_data {F D : Type} (fe : FloatEnv F D) (st : fuel_gauge_state F)
    (inp : gauge_sample F) : fuel_gauge_result F :=
  fuel_gauge_update fe st inp st.vbus_connected

/-! ## app_sensors.c -/

/-- The constant `NUM_SENSOR_KEY_VALUE_PAIRS`. -/
def NUM_SENSOR_KEY_VALUE_PAIRS : Nat := 2

/-- The constant `MODEM_MAP_ENTRIES`. -/
def MODEM_MAP_ENTRIES : Nat := 4

/-- The constant `BATTERY_MAP_ENTRIES`. -/
def BATTERY_MAP_ENTRIES : Nat := 5

/-- The size `sizeof(cbor_buf)` of the frame buffer. -/
def CBOR_BUF_SIZE : Nat := 256

/-- Static variables reachable from `app_sensors_read_and_stream`: the two counters of
`app_sensors.c` and the static variables of `fuel_gauge.c`. -/
structure app_state (F : Type) where
  tx_success_counter : Nat
  tx_failure_counter : Nat
  fg : fuel_gauge_state F

/-- What the modem library supplies to one `read_modem_data` call: the return values of
`modem_info_get_batt_voltage` and `modem_info_get_temperature` and the values they store. -/
structure modem_reading where
  voltage_err : Int
  modem_voltage : Int
  temp_err : Int
  modem_temp : Int

/-- The five `struct sensor_value` locals of `read_battery_data`, which are declared without
an initialiser: their content when the function is entered. -/
structure battery_locals where
  voltage : sensor_value
  current : sensor_value
  soc : sensor_value
  tte : sensor_value
  ttf : sensor_value

/-- What the outside world supplies to one `app_sensors_read_and_stream` call. -/
structure cycle_env (F : Type) where
  modem : modem_reading
  gauge : gauge_sample F
  /-- What the stack holds where `read_battery_data` has its `sensor_value` locals. -/
  locals : battery_locals
  /-- Value of `golioth_client_is_connected(client)`. -/
  connected : Bool
  /-- Return value of `golioth_stream_set_async`, should it be called. -/
  stream_err : Int

/-- Content types passed to `golioth_stream_set_async`. -/
inductive content_type where
  | GOLIOTH_CONTENT_TYPE_JSON
  | GOLIOTH_CONTENT_TYPE_CBOR
deriving DecidableEq, Repr

/-- One call of `golioth_stream_set_async(client, path, content_type, buf, buf_len,
async_error_handler, NULL)`; `payload` is the first `buf_len` bytes of `buf`. -/
structure publish_call where
  path : String
  ctype : content_type
  payload : List Nat
deriving DecidableEq, Repr

/-- The callback `async_error_handler`: a status other than `GOLIOTH_OK` is logged, and the
static variables are left as they are on both paths. -/
def async_error_handler {F : Type} (st : app_state F) (status : golioth_status) :
    app_state F × List String :=
  if status ≠ GOLIOTH_OK then (st, ["Async task failed: %d"]) else (st, [])

/-- The getter `app_sensors_get_tx_success_count`. -/
def app_sensors_get_tx_success_count {F : Type} (st : app_state F) : Nat :=
  st.tx_success_counter

/-- The getter `app_sensors_get_tx_failure_count`. -/
def app_sensors_get_tx_failure_count {F : Type} (st : app_state F) : Nat :=
  st.tx_failure_counter

/-- Result of `read_modem_data`. -/
structure modem_result (σ : Type) where
  status : golioth_status
  zse : σ
  errors : List String

/-- The function `read_modem_data(zse)`.  The `uint32_t` counters are converted to the
`int32_t` parameter of `zcbor_int32_put`. -/
def read_modem_data {σ F D : Type} (z : Zcbor σ D) (st : app_state F) (m : modem_reading)
    (zse : σ) : modem_result σ :=
  if m.voltage_err ≠ 0 then
    ⟨GOLIOTH_ERR_FAIL, zse, ["Modem voltage read failed, err: %d\n"]⟩
  else if m.temp_err ≠ 0 then
    ⟨GOLIOTH_ERR_FAIL, zse, ["Modem Temp read failed, err: %d\n"]⟩
  else
    let r1 := and_chain
      [fun s => z.tstr_put_lit s "modem",
       fun s => z.map_start_encode s MODEM_MAP_ENTRIES] zse
    if r1.1 = false then
      ⟨GOLIOTH_ERR_QUEUE_FULL, r1.2, ["ZCBOR unable to open modem map"]⟩
    else
      let r2 := and_chain
        [fun s => z.tstr_put_lit s "vbat",
         fun s => z.int32_put s (to_int32 m.modem_voltage),
         fun s => z.tstr_put_lit s "temp",
         fun s => z.int32_put s (to_int32 m.modem_temp),
         fun s => z.tstr_put_lit s "success",
         fun s => z.int32_put s (to_int32 (app_sensors_get_tx_success_count st)),
         fun s => z.tstr_put_lit s "fail",
         fun s => z.int32_put s (to_int32 (app_sensors_get_tx_failure_count st))] r1.2
      if r2.1 = false then
        ⟨GOLIOTH_ERR_QUEUE_FULL, r2.2, ["ZCBOR failed to encode modem data"]⟩
      else
        let r3 := z.map_end_encode r2.2 MODEM_MAP_ENTRIES
        if r3.1 = false then
          ⟨GOLIOTH_ERR_QUEUE_FULL, r3.2, ["ZCBOR failed to close modem map"]⟩
        else ⟨GOLIOTH_OK, r3.2, []⟩

/-- The value a battery field has when it reaches `zcbor_float64_put`: the `float` `x` is
promoted to `double` and handed to `sensor_value_from_double` together with the local
`val`, whose content before the call is `prior`; the return value is not looked at, and
`sensor_value_to_double` reads the local as the call left it. -/
def battery_field {F D : Type} (fe : FloatEnv F D) (prior : sensor_value) (x : F) : D :=
  fe.sensor_value_to_double (fe.sensor_value_from_double prior (fe.to_double x)).2

/-- Result of `read_battery_data`. -/
structure battery_result (σ F : Type) where
  status : golioth_status
  zse : σ
  fg : fuel_gauge_state F
  calls : List (fg_call F)
  errors : List String

/-- The function `read_battery_data(zse)`.  `locals` is the content of the five
uninitialised `sensor_value` locals on entry; the return values of the five
`sensor_value_from_double` calls are dropped. -/
def read_battery_data {σ F D : Type} (z : Zcbor σ D) (fe : FloatEnv F D)
    (fg : fuel_gauge_state F) (g : gauge_sample F) (locals : battery_locals) (zse : σ) :
    battery_result σ F :=
  let r := get_battery_data fe fg g
  let batt_data := r.state.batt_data
  let voltage := (fe.sensor_value_from_double locals.voltage (fe.to_double batt_data.voltage)).2
  let current := (fe.sensor_value_from_double locals.current (fe.to_double batt_data.current)).2
  let soc := (fe.sensor_value_from_double locals.soc (fe.to_double batt_data.soc)).2
  let tte := (fe.sensor_value_from_double locals.tte (fe.to_double batt_data.tte)).2
  let ttf := (fe.sensor_value_from_double locals.ttf (fe.to_double batt_data.ttf)).2
  let r1 := and_chain
    [fun s => z.tstr_put_lit s "battery",
     fun s => z.map_start_encode s BATTERY_MAP_ENTRIES] zse
  if r1.1 = false then
    ⟨GOLIOTH_ERR_QUEUE_FULL, r1.2, r.state, r.calls,
      r.errors ++ ["ZCBOR unable to open battery map"]⟩
  else
    let r2 := and_chain
      [fun s => z.tstr_put_lit s "V",
       fun s => z.float64_put s (fe.sensor_value_to_double voltage),
       fun s => z.tstr_put_lit s "I",
       fun s => z.float64_put s (fe.sensor_value_to_double current),
       fun s => z.tstr_put_lit s "SoC",
       fun s => z.float64_put s (fe.sensor_value_to_double soc),
       fun s => z.tstr_put_lit s "tte",
       fun s => z.float64_put s (fe.sensor_value_to_double tte),
       fun s => z.tstr_put_lit s "ttf",
       fun s => z.float64_put s (fe.sensor_value_to_double ttf)] r1.2
    if r2.1 = false then
      ⟨GOLIOTH_ERR_QUEUE_FULL, r2.2, r.state, r.calls,
        r.errors ++ ["ZCBOR failed to encode battery data"]⟩
    else
      let r3 := z.map_end_encode r2.2 BATTERY_MAP_ENTRIES
      if r3.1 = false then
        ⟨GOLIOTH_ERR_QUEUE_FULL, r3.2, r.state, r.calls,
          r.errors ++ ["ZCBOR failed to close battery map"]⟩
      else ⟨GOLIOTH_OK, r3.2, r.state, r.calls, r.errors⟩

/-- Result of one `app_sensors_read_and_stream` call: the static variables afterwards, the
calls of `golioth_stream_set_async` made, the calls into the fuel gauge library made, and
the `LOG_ERR` lines written. -/
structure cycle_result (F : Type) where
  state : app_state F
  published : List publish_call
  calls : List (fg_call F)
  errors : List String

/-- The function `app_sensors_read_and_stream`. -/
def app_sensors_read_and_stream {σ F D : Type} (z : Zcbor σ D) (fe : FloatEnv F D)
    (st : app_state F) (env : cycle_env F) : cycle_result F :=
  let zse := z.new_encode_state NUM_SENSOR_KEY_VALUE_PAIRS CBOR_BUF_SIZE 1
  let o := z.map_start_encode zse NUM_SENSOR_KEY_VALUE_PAIRS
  if o.1 = false then ⟨st, [], [], ["ZCBOR failed to open map"]⟩
  else
    let m := read_modem_data z st env.modem o.2
    if m.status = GOLIOTH_ERR_QUEUE_FULL then
      ⟨st, [], [], m.errors⟩
    else
      let b := read_battery_data z fe st.fg env.gauge env.locals m.zse
      let st1 : app_state F := { st with fg := b.fg }
      if b.status = GOLIOTH_ERR_QUEUE_FULL then
        ⟨st1, [], b.calls, m.errors ++ b.errors⟩
      else
        let e := z.map_end_encode b.zse NUM_SENSOR_KEY_VALUE_PAIRS
        let close_errors := if e.1 = false then ["ZCBOR failed to close map"] else []
        let cbor := z.written e.2
        if env.connected then
          let call : publish_call := ⟨"sensor", content_type.GOLIOTH_CONTENT_TYPE_CBOR, cbor⟩
          if env.stream_err ≠ 0 then
            ⟨{ st1 with tx_failure_counter := u32_incr st1.tx_failure_counter }, [call],
              b.calls,
              m.errors ++ b.errors ++ close_errors ++
                ["Failed to send sensor data to Golioth: %d"]⟩
          else
            ⟨{ st1 with tx_success_counter := u32_incr st1.tx_success_counter }, [call],
              b.calls, m.errors ++ b.errors ++ close_errors⟩
        else
          ⟨st1, [], b.calls, m.errors ++ b.errors ++ close_errors⟩

/-! ## Reference model of the zcbor encoder

The encoder is an external library.  This model follows its encode functions for the calls
`app_sensors.c` makes: every item is written whole or not at all, integers and lengths use
the shortest of the 1, 2, 3, 5 and 9 byte forms, and a map is written with indefinite length
(`0xBF` ... `0xFF`) unless the library is built with `ZCBOR_CANONICAL`, in which case the
header written at the start holds `max_num` and is rewritten with the real number of pairs at
the end.  The build option is the parameter `canonical`. -/

/-- State of the reference encoder: the bytes written so far, the size of the buffer, the
element count of the list or map being written, and the backups taken at each open map
(position of its header and element count of the enclosing level). -/
structure zcbor_state where
  buf : List Nat
  payload_size : Nat
  elem_count : Nat
  num_backups : Nat
  backups : List (Nat × Nat)
deriving DecidableEq, Repr

/-- Big-endian bytes: the `n` low-order bytes of `v`, most significant first. -/
def be_bytes : Nat → Nat → List Nat
  | 0, _ => []
  | n + 1, v => v / 256 ^ n % 256 :: be_bytes n v

/-- Header byte and argument of a CBOR item of major type `major` with argument `v`, in the
shortest form (`value_encode`). -/
def value_bytes (major v : Nat) : List Nat :=
  if v ≤ 23 then [major * 32 + v]
  else if v < 256 then (major * 32 + 24) :: be_bytes 1 v
  else if v < 65536 then (major * 32 + 25) :: be_bytes 2 v
  else if v < 4294967296 then (major * 32 + 26) :: be_bytes 4 v
  else (major * 32 + 27) :: be_bytes 8 v

/-- Bytes of a C string literal (the literals of the sources are ASCII). -/
def lit_bytes (lit : String) : List Nat := lit.toList.map Char.toNat

/-- Encoding of a text string. -/
def tstr_bytes (lit : String) : List Nat :=
  value_bytes 3 (lit_bytes lit).length ++ lit_bytes lit

/-- Encoding of a signed integer (`zcbor_int_encode`): major type 0 for `v ≥ 0`, major type
1 with argument `-1 - v` otherwise. -/
def int_bytes (v : Int) : List Nat :=
  if 0 ≤ v then value_bytes 0 v.toNat else value_bytes 1 (-1 - v).toNat

/-- Encoding of a binary64 float with image `bits`, reduced modulo
`2 ^ 64 = 18446744073709551616`. -/
def float64_bytes (bits : Nat) : List Nat := 0xFB :: be_bytes 8 (bits % 18446744073709551616)

/-- Writing one item: it is appended when it fits in the rest of the buffer, and counted;
otherwise the call fails and the state stays as it is. -/
def put_bytes (s : zcbor_state) (bytes : List Nat) : Bool × zcbor_state :=
  if s.buf.length + bytes.length ≤ s.payload_size then
    (true, { s with buf := s.buf ++ bytes, elem_count := s.elem_count + 1 })
  else (false, s)

/-- The state after `bytes` have been appended and `k` elements counted. -/
def wrote (s : zcbor_state) (bytes : List Nat) (k : Nat) : zcbor_state :=
  { s with buf := s.buf ++ bytes, elem_count := s.elem_count + k }

/-- The state after a map header `hdr` has been written in canonical mode: the position of
the header and the element count of the enclosing level are backed up and the count starts
again from zero. -/
def opened (s : zcbor_state) (hdr : List Nat) : zcbor_state :=
  { s with buf := s.buf ++ hdr, elem_count := 0,
           backups := (s.buf.length, s.elem_count) :: s.backups }

/-- Number of elements the enclosing level counts for one map entry whose items take `k`
elements when written with indefinite length: in canonical mode the key and the map count
as two. -/
def entry_elems (canonical : Bool) (k : Nat) : Nat := if canonical then 2 else k

/-- Reference `zcbor_map_start_encode`. -/
def ref_map_start_encode (canonical : Bool) (s : zcbor_state) (max_num : Nat) :
    Bool × zcbor_state :=
  if canonical then
    if s.num_backups ≤ s.backups.length then (false, s)
    else
      let s1 := { s with backups := (s.buf.length, s.elem_count) :: s.backups, elem_count := 0 }
      let r := put_bytes s1 (value_bytes 5 max_num)
      if r.1 then (true, { r.2 with elem_count := r.2.elem_count - 1 }) else r
  else put_bytes s [0xBF]

/-- Reference `zcbor_map_end_encode`. -/
def ref_map_end_encode (canonical : Bool) (s : zcbor_state) (max_num : Nat) :
    Bool × zcbor_state :=
  if canonical then
    let list_count := s.elem_count / 2
    let max_header_len := (value_bytes 5 max_num).length - 1
    let header_len := (value_bytes 5 list_count).length - 1
    match s.backups with
    | [] => (false, s)
    | (start, saved_count) :: rest =>
      let restored :=
        { s with buf := s.buf.take start, elem_count := saved_count, backups := rest }
      if max_header_len < header_len then (false, restored)
      else
        let r := put_bytes restored (value_bytes 5 list_count)
        if r.1 then
          (true, { r.2 with buf := r.2.buf ++ s.buf.drop (start + 1 + max_header_len) })
        else r
  else put_bytes s [0xFF]

/-- The reference encoder as an instance of the interface; `bits` gives the binary64 image
of a `double`. -/
def zcbor_ref {D : Type} (canonical : Bool) (bits : D → Nat) : Zcbor zcbor_state D where
  new_encode_state := fun num_backups payload_size elem_count =>
    { buf := [], payload_size := payload_size, elem_count := elem_count,
      num_backups := num_backups, backups := [] }
  map_start_encode := ref_map_start_encode canonical
  map_end_encode := ref_map_end_encode canonical
  tstr_put_lit := fun s lit => put_bytes s (tstr_bytes lit)
  int32_put := fun s v => put_bytes s (int_bytes v)
  float64_put := fun s d => put_bytes s (float64_bytes (bits d))
  written := fun s => s.buf

/-- Decoded CBOR data items. -/
inductive cbor where
  | int (v : Int)
  | tstr (bytes : List Nat)
  | float64 (bits : Nat)
  | map (entries : List (cbor × cbor))

/-- Value of a big-endian byte sequence. -/
def be_value (bytes : List Nat) : Nat := bytes.foldl (fun acc b => acc * 256 + b) 0

/-- Argument of an item whose header byte has additional information `ai`, and the bytes
after it. -/
def decode_arg (ai : Nat) (rest : List Nat) : Option (Nat × List Nat) :=
  if ai < 24 then some (ai, rest)
  else
    let n := if ai = 24 then 1 else if ai = 25 then 2 else if ai = 26 then 4 else 8
    if ai ≤ 27 ∧ n ≤ rest.length then some (be_value (rest.take n), rest.drop n) else none

mutual
/-- One data item at the head of the input, and the input after it. -/
def decode_item : Nat → List Nat → Option (cbor × List Nat)
  | 0, _ => none
  | _ + 1, [] => none
  | fuel + 1, b :: rest =>
    if 255 < b then none
    else if b / 32 = 0 then
      match decode_arg (b % 32) rest with
      | some (v, r) => some (cbor.int v, r)
      | none => none
    else if b / 32 = 1 then
      match decode_arg (b % 32) rest with
      | some (v, r) => some (cbor.int (-1 - (v : Int)), r)
      | none => none
    else if b / 32 = 3 then
      match decode_arg (b % 32) rest with
      | some (n, r) => if n ≤ r.length then some (cbor.tstr (r.take n), r.drop n) else none
      | none => none
    else if b / 32 = 5 then
      if b % 32 = 31 then
        match decode_indef fuel rest with
        | some (es, r) => some (cbor.map es, r)
        | none => none
      else
        match decode_arg (b % 32) rest with
        | some (n, r) =>
          match decode_pairs fuel n r with
          | some (es, r1) => some (cbor.map es, r1)
          | none => none
        | none => none
    else if b = 0xFB then
      if 8 ≤ rest.length then some (cbor.float64 (be_value (rest.take 8)), rest.drop 8)
      else none
    else none
/-- Key/value pairs up to the break byte `0xFF`. -/
def decode_indef : Nat → List Nat → Option (List (cbor × cbor) × List Nat)
  | 0, _ => none
  | _ + 1, 0xFF :: r => some ([], r)
  | fuel + 1, bytes =>
    match decode_item fuel bytes with
    | none => none
    | some (k, r1) =>
      match decode_item fuel r1 with
      | none => none
      | some (v, r2) =>
        match decode_indef fuel r2 with
        | none => none
        | some (es, r3) => some ((k, v) :: es, r3)
/-- Exactly `n` key/value pairs. -/
def decode_pairs : Nat → Nat → List Nat → Option (List (cbor × cbor) × List Nat)
  | 0, _, _ => none
  | _ + 1, 0, r => some ([], r)
  | fuel + 1, n + 1, bytes =>
    match decode_item fuel bytes with
    | none => none
    | some (k, r1) =>
      match decode_item fuel r1 with
      | none => none
      | some (v, r2) =>
        match decode_pairs fuel n r2 with
        | none => none
        | some (es, r3) => some ((k, v) :: es, r3)
end

/-- Encoding of the pairs of a map, one after the other: a text-string key and the bytes of
its value. -/
def pairs_bytes : List (String × List Nat) → List Nat
  | [] => []
  | (key, value) :: rest => tstr_bytes key ++ value ++ pairs_bytes rest

/-- Bytes that open a map of `n` pairs. -/
def map_open (canonical : Bool) (n : Nat) : List Nat :=
  if canonical then value_bytes 5 n else [0xBF]

/-- Bytes that close a map. -/
def map_close (canonical : Bool) : List Nat := if canonical then [] else [0xFF]

/-- Encoding of a map with text-string keys. -/
def map_bytes (canonical : Bool) (kvs : List (String × List Nat)) : List Nat :=
  map_open canonical kvs.length ++ (pairs_bytes kvs ++ map_close canonical)

/-- The reference encoder state that `ZCBOR_STATE_E(zse, 2, cbor_buf, 256, 1)` sets up. -/
def zse_init : zcbor_state :=
  ⟨[], CBOR_BUF_SIZE, 1, NUM_SENSOR_KEY_VALUE_PAIRS, []⟩

/-- The `LOG_ERR` line `read_modem_data` writes when a modem read fails. -/
def modem_errors (m : modem_reading) : List String :=
  if m.voltage_err ≠ 0 then ["Modem voltage read failed, err: %d\n"]
  else if m.temp_err ≠ 0 then ["Modem Temp read failed, err: %d\n"]
  else []

/-- Wire image of the `"modem"` entry: present when both modem reads succeed. -/
def modem_entries {F : Type} (canonical : Bool) (st : app_state F) (m : modem_reading) :
    List (String × List Nat) :=
  if m.voltage_err = 0 ∧ m.temp_err = 0 then
    [("modem", map_bytes canonical
      [("vbat", int_bytes (to_int32 m.modem_voltage)),
       ("temp", int_bytes (to_int32 m.modem_temp)),
       ("success", int_bytes (to_int32 st.tx_success_counter)),
       ("fail", int_bytes (to_int32 st.tx_failure_counter))])]
  else []

/-- Wire image of the `"battery"` entry for the battery data `bd` and the locals `l`. -/
def battery_entries {F D : Type} (canonical : Bool) (fe : FloatEnv F D) (l : battery_locals)
    (bd : battery_data F) : List (String × List Nat) :=
  [("battery", map_bytes canonical
    [("V", float64_bytes (fe.f64_bits (battery_field fe l.voltage bd.voltage))),
     ("I", float64_bytes (fe.f64_bits (battery_field fe l.current bd.current))),
     ("SoC", float64_bytes (fe.f64_bits (battery_field fe l.soc bd.soc))),
     ("tte", float64_bytes (fe.f64_bits (battery_field fe l.tte bd.tte))),
     ("ttf", float64_bytes (fe.f64_bits (battery_field fe l.ttf bd.ttf)))])]

/-- Wire image of the frame of one cycle. -/
def telemetry_frame_bytes {F D : Type} (canonical : Bool) (fe : FloatEnv F D)
    (st : app_state F) (env : cycle_env F) : List Nat :=
  map_bytes canonical
    (modem_entries canonical st env.modem ++
      battery_entries canonical fe env.locals
        (get_battery_data fe st.fg env.gauge).state.batt_data)

/-- Decoding of a whole frame: one data item and nothing after it. -/
def decode (bytes : List Nat) : Option cbor :=
  match decode_item (2 * bytes.length + 2) bytes with
  | some (c, []) => some c
  | _ => none

/-- The bytes decode to the item `c` with `n` units of fuel, whatever follows them. -/
def Decodes (bytes : List Nat) (c : cbor) (n : Nat) : Prop :=
  ∀ fuel rest, decode_item (fuel + n) (bytes ++ rest) = some (c, rest)

/-- The bytes followed by the break byte decode to the pairs `es`. -/
def DecodesIndef (bytes : List Nat) (es : List (cbor × cbor)) (n : Nat) : Prop :=
  ∀ fuel rest, decode_indef (fuel + n) (bytes ++ 0xFF :: rest) = some (es, rest)

/-- The bytes decode to the `cnt` pairs `es`. -/
def DecodesPairs (bytes : List Nat) (cnt : Nat) (es : List (cbor × cbor)) (n : Nat) : Prop :=
  ∀ fuel rest, decode_pairs (fuel + n) cnt (bytes ++ rest) = some (es, rest)

/-- The `"modem"` map of the frame as the specification gives it: four integers under the
keys `vbat`, `temp`, `success` and `fail`, in this order. -/
def modem_tree (vbat temp success fail : Int) : cbor :=
  cbor.map
    [(cbor.tstr (lit_bytes "vbat"), cbor.int vbat),
     (cbor.tstr (lit_bytes "temp"), cbor.int temp),
     (cbor.tstr (lit_bytes "success"), cbor.int success),
     (cbor.tstr (lit_bytes "fail"), cbor.int fail)]

/-- The `"battery"` map of the frame as the specification gives it: five binary64 floats,
given by their images, under the keys `V`, `I`, `SoC`, `tte` and `ttf`, in this order. -/
def battery_tree (V I SoC tte ttf : Nat) : cbor :=
  cbor.map
    [(cbor.tstr (lit_bytes "V"), cbor.float64 V),
     (cbor.tstr (lit_bytes "I"), cbor.float64 I),
     (cbor.tstr (lit_bytes "SoC"), cbor.float64 SoC),
     (cbor.tstr (lit_bytes "tte"), cbor.float64 tte),
     (cbor.tstr (lit_bytes "ttf"), cbor.float64 ttf)]

/-- The frame as the specification gives it: a map with the two entries `"modem"` and
`"battery"`, in this order. -/
def telemetry_tree (modem battery : cbor) : cbor :=
  cbor.map
    [(cbor.tstr (lit_bytes "modem"), modem), (cbor.tstr (lit_bytes "battery"), battery)]

/-- The binary64 image that reaches the wire for a battery field: the image of
`battery_field`, reduced modulo `2 ^ 64`. -/
def battery_bits {F D : Type} (fe : FloatEnv F D) (prior : sensor_value) (x : F) : Nat :=
  fe.f64_bits (battery_field fe prior x) % 18446744073709551616

/-- The binary64 image of a battery value as it is before the `sensor_value` conversion,
reduced modulo `2 ^ 64`. -/
def input_bits {F D : Type} (fe : FloatEnv F D) (x : F) : Nat :=
  fe.f64_bits (fe.to_double x) % 18446744073709551616

/-! ## Runs of telemetry cycles -/

/-- What happens to the static variables of `app_sensors.c` over time: the main loop runs a
telemetry cycle, or the Golioth client delivers the completion of an earlier publish. -/
inductive event (F : Type) where
  | cycle (env : cycle_env F)
  | completion (status : golioth_status)

/-- One event: the static variables afterwards and the publish calls made. -/
def run_event {σ F D : Type} (z : Zcbor σ D) (fe : FloatEnv F D) (st : app_state F) :
    event F → app_state F × List publish_call
  | event.cycle env =>
    ((app_sensors_read_and_stream z fe st env).state,
      (app_sensors_read_and_stream z fe st env).published)
  | event.completion status => ((async_error_handler st status).1, [])

/-- A sequence of events, one after the other: the static variables at the end and all
publish calls made, in order. -/
def run {σ F D : Type} (z : Zcbor σ D) (fe : FloatEnv F D) :
    app_state F → List (event F) → app_state F × List publish_call
  | st, [] => (st, [])
  | st, e :: es =>
    ((run z fe (run_event z fe st e).1 es).1,
      (run_event z fe st e).2 ++ (run z fe (run_event z fe st e).1 es).2)

/-- The `LOG_ERR` lines with which `app_sensors.c` reports a failed encode step. -/
def zcbor_failure_logs : List String :=
  ["ZCBOR failed to open map", "ZCBOR unable to open modem map",
   "ZCBOR failed to encode modem data", "ZCBOR failed to close modem map",
   "ZCBOR unable to open battery map", "ZCBOR failed to encode battery data",
   "ZCBOR failed to close battery map", "ZCBOR failed to close map"]

/-- The arguments of the `nrf_fuel_gauge_process` calls among `calls`, in order. -/
def process_calls {F : Type} : List (fg_call F) → List (F × F × F × F × Bool)
  | [] => []
  | fg_call.process v i T t_delta vbus :: rest => (v, i, T, t_delta, vbus) :: process_calls rest
  | fg_call.tte_get :: rest => process_calls rest
  | fg_call.ttf_get _ _ :: rest => process_calls rest

/-! ## Exact arithmetic as an interpretation of floating point

Floating-point values are rationals and every operation is exact.  It serves to evaluate the
model on concrete inputs. -/

/-- Truncation toward zero, the C conversion of a floating-point value to an integer. -/
def trunc (q : ℚ) : Int := if 0 ≤ q then ⌊q⌋ else ⌈q⌉

/-- Image of a rational as a binary64 number, the significand rounded toward zero; exact for
zero and for the normal binary64 numbers. -/
def ideal_f64_bits (q : ℚ) : Nat :=
  if q = 0 then 0
  else
    let e : Int := Int.log 2 |q|
    let m : Nat := (⌊|q| * 2 ^ (52 - e)⌋).toNat - 2 ^ 52
    (if q < 0 then 2 ^ 63 else 0) + (e + 1023).toNat * 2 ^ 52 + m

/-- The errno value `ERANGE`. -/
def ERANGE : Int := 34

/-- Zephyr `sensor_value_from_double` in exact arithmetic: a value outside the `int32_t`
range, or whose millionths are, is refused with `-ERANGE` and the output is left as it was;
otherwise the integer part and the millionths are stored, both truncated toward zero. -/
def ideal_sensor_value_from_double (prior : sensor_value) (inp : ℚ) : Int × sensor_value :=
  if inp < -2147483648 ∨ inp > 2147483647 then (- ERANGE, prior)
  else
    let val2 : ℚ := (inp - trunc inp) * 1000000
    if val2 < -2147483648 ∨ val2 > 2147483647 then (- ERANGE, prior)
    else (0, ⟨trunc inp, trunc val2⟩)

/-- Floating point interpreted by exact rational arithmetic. -/
def ideal_float : FloatEnv ℚ ℚ where
  zero := 0
  of_int := fun n => n
  div := fun a b => a / b
  neg := fun a => -a
  to_int32 := trunc
  to_double := id
  sensor_value_to_float := fun v => v.val1 + v.val2 / 1000000
  sensor_value_from_double := ideal_sensor_value_from_double
  sensor_value_to_double := fun v => v.val1 + v.val2 / 1000000
  f64_bits := ideal_f64_bits

/-- A charger that reports 3.7 V, -0.5 A, 25 degrees and charger status 0. -/
def sample_channels : sensor_channel → Option sensor_value
  | SENSOR_CHAN_GAUGE_VOLTAGE => some ⟨3, 700000⟩
  | SENSOR_CHAN_GAUGE_AVG_CURRENT => some ⟨0, -500000⟩
  | SENSOR_CHAN_GAUGE_TEMP => some ⟨25, 0⟩
  | SENSOR_CHAN_GAUGE_DESIRED_CHARGING_CURRENT => some ⟨0, 150000⟩
  | SENSOR_CHAN_NPM1300_CHARGER_STATUS => some ⟨0, 0⟩

/-- Static variables of `fuel_gauge.c` with every number zero and `ref_time` as given. -/
def sample_fg (ref_time : Int) : fuel_gauge_state ℚ :=
  ⟨false, true, 0, 0, ref_time, ⟨0, 0, 0, 0, 0, 0⟩⟩

/-- A fuel gauge sample taken at `now` whose fetch returns `fetch`. -/
def sample_gauge (fetch now : Int) : gauge_sample ℚ :=
  ⟨fetch, sample_channels, now, 55, 1000, 0⟩

/-- Static variables with the given counters. -/
def sample_state (tx_success tx_failure : Nat) : app_state ℚ :=
  ⟨tx_success, tx_failure, sample_fg 1000⟩

/-- Left-over stack content for the locals of `read_battery_data`. -/
def sample_locals : battery_locals := ⟨⟨7, 0⟩, ⟨-1, 250000⟩, ⟨0, 0⟩, ⟨12, 500000⟩, ⟨3, 0⟩⟩

/-- A cycle in which the modem reports 4012 mV and -7 degrees (or fails with `voltage_err`),
the fuel gauge fetch returns `fetch`, and the publish call, if made, returns `stream_err`. -/
def sample_env (voltage_err fetch : Int) (connected : Bool) (stream_err : Int) : cycle_env ℚ :=
  ⟨⟨voltage_err, 4012, 0, -7⟩, sample_gauge fetch 3000, sample_locals, connected, stream_err⟩

/-- A fuel gauge sample in which the library reports a state of charge of
`2 ^ -21 = 1 / 2097152`, a number binary32 and binary64 both hold exactly. -/
def small_soc_gauge : gauge_sample ℚ :=
  ⟨0, sample_channels, 3000, 1 / 2097152, 1000, 0⟩

/-- The cycle `sample_env 0 0 true 0` with the fuel gauge sample `small_soc_gauge`. -/
def small_soc_env : cycle_env ℚ :=
  ⟨⟨0, 4012, 0, -7⟩, small_soc_gauge, sample_locals, true, 0⟩

/-! ## main.c: the reset reason -/

/-- The masks `NRFX_RESET_REASON_*_MASK` of the nrfx header, which is not part of the
sources: one field for each mask `reset_reason_str_get` tests. -/
structure reset_masks where
  RESETPIN : Nat
  DOG : Nat
  OFF : Nat
  DIF : Nat
  SREQ : Nat
  LOCKUP : Nat
  CTRLAP : Nat

/-- The masks of the nRF91 series: bits 0, 1, 2, 4, 16, 17 and 18 of `RESETREAS`. -/
def nrf91_masks : reset_masks := ⟨1, 2, 4, 16, 65536, 131072, 262144⟩

/-- The call `strcat(str, lit)` on a buffer holding the C string `str`. -/
def strcat (str : List Char) (lit : String) : List Char := str ++ lit.toList

/-- The C test `reason & mask`. -/
def bit_set (reason mask : Nat) : Bool := decide (reason &&& mask ≠ 0)

/-- The content of `str` in `reset_reason_str_get` after the seven tests, before the
trailing separator is removed, given which tests succeed. -/
def reset_reason_concat_flags (pin dog off dif sreq lockup ctrlap : Bool) : List Char :=
  let str : List Char := []
  let str := if pin then strcat str "PIN reset | " else str
  let str := if dog then strcat str "watchdog | " else str
  let str := if off then strcat str "wakeup from power-off | " else str
  let str := if dif then strcat str "debug interface wakeup | " else str
  let str := if sreq then strcat str "software | " else str
  let str := if lockup then strcat str "CPU lockup | " else str
  let str := if ctrlap then strcat str "control access port | " else str
  str

/-- The end of `reset_reason_str_get`: an empty string is replaced by `power-on reset`,
otherwise `str[len - 3] = 0` cuts the string before its last three characters. -/
def reset_reason_trim (str : List Char) : List Char :=
  let len := str.length
  if len = 0 then "power-on reset".toList else str.take (len - 3)

/-- The content of `str` before trimming, for a reason value. -/
def reset_reason_concat (mk : reset_masks) (reason : Nat) : List Char :=
  reset_reason_concat_flags (bit_set reason mk.RESETPIN) (bit_set reason mk.DOG)
    (bit_set reason mk.OFF) (bit_set reason mk.DIF) (bit_set reason mk.SREQ)
    (bit_set reason mk.LOCKUP) (bit_set reason mk.CTRLAP)

/-- The function `reset_reason_str_get(str, reason)`: the C string it leaves in `str`. -/
def reset_reason_str_get (mk : reset_masks) (reason : Nat) : List Char :=
  reset_reason_trim (reset_reason_concat mk reason)

/-- The names of the causes, in the fixed order, each with the flag that tells whether its
mask bit is set. -/
def cause_names (pin dog off dif sreq lockup ctrlap : Bool) : List String :=
  (if pin then ["PIN reset"] else []) ++ (if dog then ["watchdog"] else []) ++
  (if off then ["wakeup from power-off"] else []) ++
  (if dif then ["debug interface wakeup"] else []) ++ (if sreq then ["software"] else []) ++
  (if lockup then ["CPU lockup"] else []) ++ (if ctrlap then ["control access port"] else [])

/-- The reset reason as the specification words it: `power-on reset` when no cause is set,
otherwise the names of the causes joined by ` | `. -/
def reset_reason_spec (names : List String) : List Char :=
  if names = [] then "power-on reset".toList else (" | ".intercalate names).toList

/-- The size of `reset_reason_str` in `print_reset_reason`. -/
def RESET_REASON_STR_SIZE : Nat := 128

/-! ## fuel_gauge.c and main.c: initialisation -/

/-- The errno value `ENODEV`. -/
def ENODEV : Int := 19

/-- What the outside world supplies to one `npm1300_fuel_gauge_init` call. -/
structure init_env (F : Type) where
  /-- Value of `device_is_ready(pmic)`. -/
  pmic_ready : Bool
  /-- Value of `device_is_ready(charger)`. -/
  charger_ready : Bool
  /-- The fetch, channel values and uptime seen by `fuel_gauge_init_params`. -/
  sample : gauge_sample F
  /-- Return value of `mfd_npm1300_add_callback`. -/
  add_callback_err : Int
  /-- Return value of `sensor_attr_get(charger, SENSOR_CHAN_CURRENT, SENSOR_ATTR_UPPER_THRESH,
  &val)`. -/
  attr_ret : Int
  /-- The value `sensor_attr_get` stores in `val`. -/
  attr_val : sensor_value

/-- The function `fuel_gauge_init_params(charger)`: its return value and the static
variables afterwards. -/
def fuel_gauge_init_params {F D : Type} (fe : FloatEnv F D) (st : fuel_gauge_state F)
    (inp : gauge_sample F) : Int × fuel_gauge_state F :=
  if inp.fetch < 0 then (- EIO, st)
  else
    let max_charge_current :=
      get_sensor_value fe inp.channel_get SENSOR_CHAN_GAUGE_DESIRED_CHARGING_CURRENT
    (0, { st with
          max_charge_current := max_charge_current,
          term_charge_current := fe.div max_charge_current (fe.of_int 10),
          ref_time := inp.now })

/-- Result of `npm1300_fuel_gauge_init`. -/
structure init_result (F : Type) where
  ret : Int
  state : fuel_gauge_state F
  errors : List String

/-- The function `npm1300_fuel_gauge_init`.  It returns an `int`: `-ENODEV`, the C value of
`false`, which is 0, or the value of `initialized`, which is 1. -/
def npm1300_fuel_gauge_init {F D : Type} (fe : FloatEnv F D) (st : fuel_gauge_state F)
    (env : init_env F) : init_result F :=
  if !env.pmic_ready || !env.charger_ready then
    ⟨- ENODEV, st, ["PMIC or Charger device not ready."]⟩
  else
    let p := fuel_gauge_init_params fe st env.sample
    let e1 := if p.1 < 0 then ["Could not initialise fuel gauge."] else []
    let e2 := if env.add_callback_err ≠ 0 then ["Failed to add pmic callback."] else []
    if env.attr_ret < 0 then ⟨0, p.2, e1 ++ e2⟩
    else
      ⟨1, { p.2 with
            vbus_connected := decide (env.attr_val.val1 ≠ 0) || decide (env.attr_val.val2 ≠ 0),
            initialized := true },
        e1 ++ e2⟩

/-- How far `main` gets. -/
inductive main_outcome where
  /-- `main` returned with this value before the telemetry loop. -/
  | returned (code : Int)
  /-- `main` went on to wait for the connection and run the telemetry loop. -/
  | telemetry_loop
deriving DecidableEq, Repr

/-- Result of the start of `main`. -/
structure main_result where
  /-- The value stored in the local `bool fuel_gauge_initialized`. -/
  fuel_gauge_initialized : Bool
  /-- Whether `lte_lc_connect_async` was called. -/
  lte_connect_called : Bool
  outcome : main_outcome
deriving DecidableEq, Repr

/-- The function `main` with `CONFIG_NRF_FUEL_GAUGE` defined, from the fuel gauge
initialisation to the start of the telemetry loop.  The `int` that
`npm1300_fuel_gauge_init` returns is converted to `bool`: every value other than 0 becomes
true.  `lte_err` is the return value of `lte_lc_connect_async`. -/
def main {F D : Type} (fe : FloatEnv F D) (st : fuel_gauge_state F) (env : init_env F)
    (lte_err : Int) : main_result :=
  let fuel_gauge_initialized : Bool := decide ((npm1300_fuel_gauge_init fe st env).ret ≠ 0)
  if !fuel_gauge_initialized then ⟨fuel_gauge_initialized, false, main_outcome.returned 0⟩
  else if lte_err ≠ 0 then ⟨fuel_gauge_initialized, true, main_outcome.returned (-1)⟩
  else ⟨fuel_gauge_initialized, true, main_outcome.telemetry_loop⟩

/-- An initialisation in which the devices are ready or not as given and the attribute read
returns `attr_ret`. -/
def sample_init (pmic_ready charger_ready : Bool) (attr_ret : Int) : init_env ℚ :=
  ⟨pmic_ready, charger_ready, sample_gauge 0 1000, 0, attr_ret, ⟨0, 0⟩⟩

/-! ## location_tracking.c -/

/-- The errno value `ENOMEM`. -/
def ENOMEM : Int := 12

/-- What the outside world supplies to one tick of `location_tracking_thread_fn`. -/
structure tick_env where
  /-- Value of `IS_ENABLED(CONFIG_GOLIOTH_LOCATION_CELLULAR)`. -/
  cellular_enabled : Bool
  /-- Return value of `cellular_info_get`. -/
  info_err : Int
  /-- The number of records `cellular_info_get` returns. -/
  num_infos : Nat
  /-- Status of the call `golioth_location_cellular_append` for record `i`. -/
  append_status : Nat → golioth_status
  /-- Status of `golioth_location_finish`. -/
  finish_status : golioth_status
  /-- Status of `golioth_location_get_sync`. -/
  get_sync_status : golioth_status

/-- The `for` loop of `cellular_get_and_encode_info` from record `i` on, with `k` records
left: it returns `-ENOMEM` at the first append that fails and 0 when none does. -/
def append_infos (append_status : Nat → golioth_status) : Nat → Nat → Int
  | _, 0 => 0
  | i, k + 1 =>
    if append_status i ≠ GOLIOTH_OK then - ENOMEM else append_infos append_status (i + 1) k

/-- The function `cellular_get_and_encode_info`. -/
def cellular_get_and_encode_info (e : tick_env) : Int :=
  if !e.cellular_enabled then 0
  else if e.info_err ≠ 0 then e.info_err
  else append_infos e.append_status 0 e.num_infos

/-- How one pass through the body of the `while (true)` loop ends. -/
inductive tick_end where
  /-- The statement `continue` was reached: the next pass starts at once. -/
  | continued
  /-- The end of the body was reached, through `k_timer_status_sync`. -/
  | synced
  /-- The statement `return` was reached: the thread function is left. -/
  | returned
deriving DecidableEq, Repr

/-- Result of one pass through the loop body. -/
structure tick_result where
  ending : tick_end
  /-- Whether `golioth_location_get_sync` was called. -/
  get_sync_called : Bool
deriving DecidableEq, Repr

/-- One pass through the body of the loop of `location_tracking_thread_fn`. -/
def location_tick (e : tick_env) : tick_result :=
  if cellular_get_and_encode_info e ≠ 0 then ⟨tick_end.continued, false⟩
  else if e.finish_status ≠ GOLIOTH_OK then
    if e.finish_status = GOLIOTH_ERR_NULL then ⟨tick_end.returned, false⟩
    else ⟨tick_end.returned, false⟩
  else ⟨tick_end.synced, true⟩

/-- The function `location_tracking_thread_fn` on the ticks the outside world offers: the
passes through the loop body it makes.  A pass that ends in `return` is the last one. -/
def location_tracking_thread_fn : List tick_env → List tick_result
  | [] => []
  | e :: es =>
    if (location_tick e).ending = tick_end.returned then [location_tick e]
    else location_tick e :: location_tracking_thread_fn es

/-- A tick in which `cellular_info_get` succeeds with `num_infos` records, every append
succeeds, and finish and resolution return the given statuses. -/
def sample_tick (num_infos : Nat) (finish_status get_sync_status : golioth_status) :
    tick_env :=
  ⟨true, 0, num_infos, fun _ => GOLIOTH_OK, finish_status, get_sync_status⟩

/-! ## The reference encoder on one cycle -/

theorem value_bytes_length_le (major v : Nat) (h : v < 4294967296) :
    (value_bytes major v).length ≤ 5 := by
  unfold value_bytes
  split_ifs <;> simp [be_bytes]

theorem int_bytes_length_le (x : Int) : (int_bytes (to_int32 x)).length ≤ 5 := by
  unfold int_bytes to_int32
  split_ifs <;> apply value_bytes_length_le <;> omega

theorem float64_bytes_length (bits : Nat) : (float64_bytes bits).length = 9 := by
  simp [float64_bytes, be_bytes]

theorem wrote_wrote (s : zcbor_state) (a b : List Nat) (i j : Nat) :
    wrote (wrote s a i) b j = wrote s (a ++ b) (i + j) := by
  simp [wrote, Nat.add_assoc]

theorem put_bytes_ok (s : zcbor_state) (bytes : List Nat)
    (h : s.buf.length + bytes.length ≤ s.payload_size) :
    put_bytes s bytes = (true, wrote s bytes 1) := by
  simp [put_bytes, h, wrote]

theorem and_chain_puts (fs : List (zcbor_state → Bool × zcbor_state))
    (items : List (List Nat))
    (hf : List.Forall₂ (fun f b => ∀ s, f s = put_bytes s b) fs items) (s : zcbor_state)
    (h : s.buf.length + items.flatten.length ≤ s.payload_size) :
    and_chain fs s = (true, wrote s items.flatten items.length) := by
  induction hf generalizing s with
  | nil => simp [and_chain, wrote]
  | @cons f b fs bs hfb _ ih =>
    simp only [List.flatten_cons, List.length_append] at h
    have hb : s.buf.length + b.length ≤ s.payload_size := by omega
    rw [and_chain, hfb, put_bytes_ok s b hb]
    simp only [if_true]
    rw [ih, wrote_wrote]
    · simp [Nat.add_comm 1]
    · simp only [wrote, List.length_append]; omega

theorem zcbor_ref_tstr {D : Type} (c : Bool) (bits : D → Nat) (s : zcbor_state)
    (lit : String) : (zcbor_ref c bits).tstr_put_lit s lit = put_bytes s (tstr_bytes lit) := by
  unfold zcbor_ref; rfl

theorem zcbor_ref_int32 {D : Type} (c : Bool) (bits : D → Nat) (s : zcbor_state) (v : Int) :
    (zcbor_ref c bits).int32_put s v = put_bytes s (int_bytes v) := by
  unfold zcbor_ref; rfl

theorem zcbor_ref_float64 {D : Type} (c : Bool) (bits : D → Nat) (s : zcbor_state) (d : D) :
    (zcbor_ref c bits).float64_put s d = put_bytes s (float64_bytes (bits d)) := by
  unfold zcbor_ref; rfl

theorem zcbor_ref_start {D : Type} (c : Bool) (bits : D → Nat) (s : zcbor_state) (n : Nat) :
    (zcbor_ref c bits).map_start_encode s n = ref_map_start_encode c s n := by
  unfold zcbor_ref; rfl

theorem zcbor_ref_end {D : Type} (c : Bool) (bits : D → Nat) (s : zcbor_state) (n : Nat) :
    (zcbor_ref c bits).map_end_encode s n = ref_map_end_encode c s n := by
  unfold zcbor_ref; rfl

theorem ref_map_start_indef (s : zcbor_state) (n : Nat) :
    ref_map_start_encode false s n = put_bytes s [0xBF] := by
  unfold ref_map_start_encode; simp

theorem ref_map_end_indef (s : zcbor_state) (n : Nat) :
    ref_map_end_encode false s n = put_bytes s [0xFF] := by
  unfold ref_map_end_encode; simp

theorem modem_items_ok {D : Type} (c : Bool) (bits : D → Nat) (v1 v2 v3 v4 : Int)
    (s : zcbor_state) (h1 : (int_bytes v1).length ≤ 5) (h2 : (int_bytes v2).length ≤ 5)
    (h3 : (int_bytes v3).length ≤ 5) (h4 : (int_bytes v4).length ≤ 5)
    (hs : s.buf.length + 43 ≤ s.payload_size) :
    and_chain
      [fun s => (zcbor_ref c bits).tstr_put_lit s "vbat",
       fun s => (zcbor_ref c bits).int32_put s v1,
       fun s => (zcbor_ref c bits).tstr_put_lit s "temp",
       fun s => (zcbor_ref c bits).int32_put s v2,
       fun s => (zcbor_ref c bits).tstr_put_lit s "success",
       fun s => (zcbor_ref c bits).int32_put s v3,
       fun s => (zcbor_ref c bits).tstr_put_lit s "fail",
       fun s => (zcbor_ref c bits).int32_put s v4] s =
      (true, wrote s (pairs_bytes
        [("vbat", int_bytes v1), ("temp", int_bytes v2), ("success", int_bytes v3),
         ("fail", int_bytes v4)]) 8) := by
  have hk1 : (tstr_bytes "vbat").length = 5 := by decide
  have hk2 : (tstr_bytes "temp").length = 5 := by decide
  have hk3 : (tstr_bytes "success").length = 8 := by decide
  have hk4 : (tstr_bytes "fail").length = 5 := by decide
  rw [and_chain_puts _
      [tstr_bytes "vbat", int_bytes v1, tstr_bytes "temp", int_bytes v2,
       tstr_bytes "success", int_bytes v3, tstr_bytes "fail", int_bytes v4]
      (.cons (zcbor_ref_tstr c bits · "vbat") (.cons (zcbor_ref_int32 c bits · v1)
        (.cons (zcbor_ref_tstr c bits · "temp") (.cons (zcbor_ref_int32 c bits · v2)
        (.cons (zcbor_ref_tstr c bits · "success") (.cons (zcbor_ref_int32 c bits · v3)
        (.cons (zcbor_ref_tstr c bits · "fail") (.cons (zcbor_ref_int32 c bits · v4)
        .nil))))))))
      s (by simp [hk1, hk2, hk3, hk4]; omega)]
  simp [pairs_bytes]

theorem map_end_indef_ok {D : Type} (bits : D → Nat) (s : zcbor_state) (n : Nat)
    (hs : s.buf.length + 1 ≤ s.payload_size) :
    (zcbor_ref false bits).map_end_encode s n = (true, wrote s [0xFF] 1) := by
  rw [zcbor_ref_end, ref_map_end_indef, put_bytes_ok _ _ (by simpa using hs)]

theorem map_open_indef_ok {D : Type} (bits : D → Nat) (key : String) (n : Nat)
    (s : zcbor_state) (hs : s.buf.length + (tstr_bytes key).length + 1 ≤ s.payload_size) :
    and_chain
      [fun s => (zcbor_ref false bits).tstr_put_lit s key,
       fun s => (zcbor_ref false bits).map_start_encode s n] s =
      (true, wrote s (tstr_bytes key ++ [0xBF]) 2) := by
  rw [and_chain_puts _ [tstr_bytes key, [0xBF]]
      (.cons (zcbor_ref_tstr false bits · key)
        (.cons (fun x => (zcbor_ref_start false bits x n).trans
          (ref_map_start_indef x n)) .nil))
      s (by simp; omega)]
  simp

theorem ref_map_start_canonical (s : zcbor_state) (max_num : Nat)
    (hb : s.backups.length < s.num_backups)
    (hs : s.buf.length + (value_bytes 5 max_num).length ≤ s.payload_size) :
    ref_map_start_encode true s max_num = (true, opened s (value_bytes 5 max_num)) := by
  simp [ref_map_start_encode, put_bytes, opened, hs, Nat.not_le.mpr hb]

theorem map_open_canonical_ok {D : Type} (bits : D → Nat) (key : String) (n : Nat)
    (s : zcbor_state) (hn : n ≤ 23) (hb : s.backups.length < s.num_backups)
    (hs : s.buf.length + (tstr_bytes key).length + 1 ≤ s.payload_size) :
    and_chain
      [fun s => (zcbor_ref true bits).tstr_put_lit s key,
       fun s => (zcbor_ref true bits).map_start_encode s n] s =
      (true, opened (wrote s (tstr_bytes key) 1) (value_bytes 5 n)) := by
  have hl : (value_bytes 5 n).length = 1 := by simp [value_bytes, hn]
  simp only [and_chain]
  rw [zcbor_ref_tstr, put_bytes_ok _ _ (by omega)]
  simp only [if_true]
  rw [zcbor_ref_start, ref_map_start_canonical _ _ (by simpa [wrote] using hb)
    (by simp [wrote, hl]; omega)]
  simp

theorem map_end_canonical_ok {D : Type} (bits : D → Nat) (s : zcbor_state)
    (body : List Nat) (n k : Nat) (hn : n ≤ 23) (hk : k / 2 ≤ 23)
    (hs : s.buf.length + 1 ≤ s.payload_size) :
    (zcbor_ref true bits).map_end_encode (wrote (opened s (value_bytes 5 n)) body k) n =
      (true, wrote s (value_bytes 5 (k / 2) ++ body) 1) := by
  have l1 : (value_bytes 5 n).length = 1 := by simp [value_bytes, hn]
  have l2 : (value_bytes 5 (k / 2)).length = 1 := by simp [value_bytes, hk]
  have ht : List.take s.buf.length (s.buf ++ value_bytes 5 n ++ body) = s.buf := by
    rw [List.append_assoc, List.take_left]
  have hd : List.drop (s.buf.length + 1 + 0) (s.buf ++ value_bytes 5 n ++ body) = body :=
    List.drop_left' (by simp [l1])
  rw [zcbor_ref_end]
  unfold ref_map_end_encode
  rw [if_pos rfl]
  simp only [wrote, opened, Nat.zero_add, l1, l2, Nat.sub_self, Nat.lt_irrefl, if_false, ht, hd]
  rw [put_bytes_ok _ _ (by simpa [l2] using hs)]
  simp [wrote]

theorem ref_modem_ok {F D : Type} (canonical : Bool) (bits : D → Nat) (st : app_state F)
    (m : modem_reading) (s : zcbor_state) (hv : m.voltage_err = 0) (ht : m.temp_err = 0)
    (hs : s.buf.length + 51 ≤ s.payload_size) (hb : s.backups.length < s.num_backups) :
    read_modem_data (zcbor_ref canonical bits) st m s =
      ⟨GOLIOTH_OK,
        wrote s (tstr_bytes "modem" ++ map_bytes canonical
            [("vbat", int_bytes (to_int32 m.modem_voltage)),
             ("temp", int_bytes (to_int32 m.modem_temp)),
             ("success", int_bytes (to_int32 st.tx_success_counter)),
             ("fail", int_bytes (to_int32 st.tx_failure_counter))])
          (if canonical then 2 else 11), []⟩ := by
  have h1 := int_bytes_length_le m.modem_voltage
  have h2 := int_bytes_length_le m.modem_temp
  have h3 := int_bytes_length_le st.tx_success_counter
  have h4 := int_bytes_length_le st.tx_failure_counter
  have hm : (tstr_bytes "modem").length = 6 := by decide
  have hk1 : (tstr_bytes "vbat").length = 5 := by decide
  have hk2 : (tstr_bytes "temp").length = 5 := by decide
  have hk3 : (tstr_bytes "success").length = 8 := by decide
  have hk4 : (tstr_bytes "fail").length = 5 := by decide
  cases canonical
  · have e1 := map_open_indef_ok bits "modem" MODEM_MAP_ENTRIES s (by omega)
    have e2 := modem_items_ok false bits (to_int32 m.modem_voltage) (to_int32 m.modem_temp)
        (to_int32 st.tx_success_counter) (to_int32 st.tx_failure_counter)
        (wrote s (tstr_bytes "modem" ++ [0xBF]) 2) h1 h2 h3 h4
        (by simp [wrote, hm]; omega)
    have e3 := map_end_indef_ok bits
        (wrote (wrote s (tstr_bytes "modem" ++ [0xBF]) 2) (pairs_bytes
          [("vbat", int_bytes (to_int32 m.modem_voltage)),
           ("temp", int_bytes (to_int32 m.modem_temp)),
           ("success", int_bytes (to_int32 st.tx_success_counter)),
           ("fail", int_bytes (to_int32 st.tx_failure_counter))]) 8) MODEM_MAP_ENTRIES
        (by simp [wrote, pairs_bytes, hm, hk1, hk2, hk3, hk4]; omega)
    unfold read_modem_data app_sensors_get_tx_success_count app_sensors_get_tx_failure_count
    rw [if_neg (by simp [hv]), if_neg (by simp [ht])]
    simp only [e1, e2, e3, Bool.true_eq_false, if_false]
    simp only [wrote_wrote]
    simp [map_bytes, map_open, map_close]
  · have e1 := map_open_canonical_ok bits "modem" MODEM_MAP_ENTRIES s (by decide) hb (by omega)
    have e2 := modem_items_ok true bits (to_int32 m.modem_voltage) (to_int32 m.modem_temp)
        (to_int32 st.tx_success_counter) (to_int32 st.tx_failure_counter)
        (opened (wrote s (tstr_bytes "modem") 1) (value_bytes 5 MODEM_MAP_ENTRIES)) h1 h2 h3 h4
        (by simp [wrote, opened, hm, value_bytes, MODEM_MAP_ENTRIES]; omega)
    have e3 := map_end_canonical_ok bits (wrote s (tstr_bytes "modem") 1) (pairs_bytes
          [("vbat", int_bytes (to_int32 m.modem_voltage)),
           ("temp", int_bytes (to_int32 m.modem_temp)),
           ("success", int_bytes (to_int32 st.tx_success_counter)),
           ("fail", int_bytes (to_int32 st.tx_failure_counter))]) MODEM_MAP_ENTRIES 8
        (by decide) (by decide) (by simp [wrote, hm]; omega)
    unfold read_modem_data app_sensors_get_tx_success_count app_sensors_get_tx_failure_count
    rw [if_neg (by simp [hv]), if_neg (by simp [ht])]
    simp only [e1, e2, e3, Bool.true_eq_false, if_false]
    simp only [wrote_wrote]
    simp [map_bytes, map_open, map_close, MODEM_MAP_ENTRIES]

theorem battery_items_ok {D : Type} (c : Bool) (bits : D → Nat) (d1 d2 d3 d4 d5 : D)
    (s : zcbor_state) (hs : s.buf.length + 61 ≤ s.payload_size) :
    and_chain
      [fun s => (zcbor_ref c bits).tstr_put_lit s "V",
       fun s => (zcbor_ref c bits).float64_put s d1,
       fun s => (zcbor_ref c bits).tstr_put_lit s "I",
       fun s => (zcbor_ref c bits).float64_put s d2,
       fun s => (zcbor_ref c bits).tstr_put_lit s "SoC",
       fun s => (zcbor_ref c bits).float64_put s d3,
       fun s => (zcbor_ref c bits).tstr_put_lit s "tte",
       fun s => (zcbor_ref c bits).float64_put s d4,
       fun s => (zcbor_ref c bits).tstr_put_lit s "ttf",
       fun s => (zcbor_ref c bits).float64_put s d5] s =
      (true, wrote s (pairs_bytes
        [("V", float64_bytes (bits d1)), ("I", float64_bytes (bits d2)),
         ("SoC", float64_bytes (bits d3)), ("tte", float64_bytes (bits d4)),
         ("ttf", float64_bytes (bits d5))]) 10) := by
  have hk1 : (tstr_bytes "V").length = 2 := by decide
  have hk2 : (tstr_bytes "I").length = 2 := by decide
  have hk3 : (tstr_bytes "SoC").length = 4 := by decide
  have hk4 : (tstr_bytes "tte").length = 4 := by decide
  have hk5 : (tstr_bytes "ttf").length = 4 := by decide
  rw [and_chain_puts _
      [tstr_bytes "V", float64_bytes (bits d1), tstr_bytes "I", float64_bytes (bits d2),
       tstr_bytes "SoC", float64_bytes (bits d3), tstr_bytes "tte", float64_bytes (bits d4),
       tstr_bytes "ttf", float64_bytes (bits d5)]
      (.cons (zcbor_ref_tstr c bits · "V") (.cons (zcbor_ref_float64 c bits · d1)
        (.cons (zcbor_ref_tstr c bits · "I") (.cons (zcbor_ref_float64 c bits · d2)
        (.cons (zcbor_ref_tstr c bits · "SoC") (.cons (zcbor_ref_float64 c bits · d3)
        (.cons (zcbor_ref_tstr c bits · "tte") (.cons (zcbor_ref_float64 c bits · d4)
        (.cons (zcbor_ref_tstr c bits · "ttf") (.cons (zcbor_ref_float64 c bits · d5)
        .nil))))))))))
      s (by simp [hk1, hk2, hk3, hk4, hk5, float64_bytes_length]; omega)]
  simp [pairs_bytes]

theorem pairs_bytes_battery_length (b1 b2 b3 b4 b5 : Nat) :
    (pairs_bytes
      [("V", float64_bytes b1), ("I", float64_bytes b2), ("SoC", float64_bytes b3),
       ("tte", float64_bytes b4), ("ttf", float64_bytes b5)]).length = 61 := by
  have hk1 : (tstr_bytes "V").length = 2 := by decide
  have hk2 : (tstr_bytes "I").length = 2 := by decide
  have hk3 : (tstr_bytes "SoC").length = 4 := by decide
  have hk4 : (tstr_bytes "tte").length = 4 := by decide
  have hk5 : (tstr_bytes "ttf").length = 4 := by decide
  simp [pairs_bytes, hk1, hk2, hk3, hk4, hk5, float64_bytes_length]

theorem ref_battery_ok {F D : Type} (canonical : Bool) (fe : FloatEnv F D)
    (fg : fuel_gauge_state F) (g : gauge_sample F) (l : battery_locals) (s : zcbor_state)
    (hs : s.buf.length + 71 ≤ s.payload_size) (hb : s.backups.length < s.num_backups) :
    read_battery_data (zcbor_ref canonical fe.f64_bits) fe fg g l s =
      ⟨GOLIOTH_OK,
        wrote s (tstr_bytes "battery" ++ map_bytes canonical
            [("V", float64_bytes (fe.f64_bits
                (battery_field fe l.voltage (get_battery_data fe fg g).state.batt_data.voltage))),
             ("I", float64_bytes (fe.f64_bits
                (battery_field fe l.current (get_battery_data fe fg g).state.batt_data.current))),
             ("SoC", float64_bytes (fe.f64_bits
                (battery_field fe l.soc (get_battery_data fe fg g).state.batt_data.soc))),
             ("tte", float64_bytes (fe.f64_bits
                (battery_field fe l.tte (get_battery_data fe fg g).state.batt_data.tte))),
             ("ttf", float64_bytes (fe.f64_bits
                (battery_field fe l.ttf (get_battery_data fe fg g).state.batt_data.ttf)))])
          (if canonical then 2 else 13),
        (get_battery_data fe fg g).state, (get_battery_data fe fg g).calls,
        (get_battery_data fe fg g).errors⟩ := by
  have hm : (tstr_bytes "battery").length = 8 := by decide
  have hl := pairs_bytes_battery_length
  unfold read_battery_data
  generalize get_battery_data fe fg g = r
  cases canonical
  · have e1 := map_open_indef_ok fe.f64_bits "battery" BATTERY_MAP_ENTRIES s (by omega)
    have e2 := battery_items_ok false fe.f64_bits
        (battery_field fe l.voltage r.state.batt_data.voltage) (battery_field fe l.current r.state.batt_data.current)
        (battery_field fe l.soc r.state.batt_data.soc) (battery_field fe l.tte r.state.batt_data.tte)
        (battery_field fe l.ttf r.state.batt_data.ttf)
        (wrote s (tstr_bytes "battery" ++ [0xBF]) 2) (by simp [wrote, hm]; omega)
    have e3 := map_end_indef_ok fe.f64_bits
        (wrote (wrote s (tstr_bytes "battery" ++ [0xBF]) 2) (pairs_bytes
          [("V", float64_bytes (fe.f64_bits (battery_field fe l.voltage r.state.batt_data.voltage))),
           ("I", float64_bytes (fe.f64_bits (battery_field fe l.current r.state.batt_data.current))),
           ("SoC", float64_bytes (fe.f64_bits (battery_field fe l.soc r.state.batt_data.soc))),
           ("tte", float64_bytes (fe.f64_bits (battery_field fe l.tte r.state.batt_data.tte))),
           ("ttf", float64_bytes (fe.f64_bits (battery_field fe l.ttf r.state.batt_data.ttf)))]) 10)
        BATTERY_MAP_ENTRIES (by simp [wrote, hl, hm]; omega)
    simp only [battery_field] at e2 e3 ⊢
    simp only [e1, e2, e3, Bool.true_eq_false, if_false]
    simp only [wrote_wrote]
    simp [map_bytes, map_open, map_close]
  · have e1 := map_open_canonical_ok fe.f64_bits "battery" BATTERY_MAP_ENTRIES s (by decide) hb
        (by omega)
    have e2 := battery_items_ok true fe.f64_bits
        (battery_field fe l.voltage r.state.batt_data.voltage) (battery_field fe l.current r.state.batt_data.current)
        (battery_field fe l.soc r.state.batt_data.soc) (battery_field fe l.tte r.state.batt_data.tte)
        (battery_field fe l.ttf r.state.batt_data.ttf)
        (opened (wrote s (tstr_bytes "battery") 1) (value_bytes 5 BATTERY_MAP_ENTRIES))
        (by simp [wrote, opened, hm, value_bytes, BATTERY_MAP_ENTRIES]; omega)
    have e3 := map_end_canonical_ok fe.f64_bits (wrote s (tstr_bytes "battery") 1) (pairs_bytes
          [("V", float64_bytes (fe.f64_bits (battery_field fe l.voltage r.state.batt_data.voltage))),
           ("I", float64_bytes (fe.f64_bits (battery_field fe l.current r.state.batt_data.current))),
           ("SoC", float64_bytes (fe.f64_bits (battery_field fe l.soc r.state.batt_data.soc))),
           ("tte", float64_bytes (fe.f64_bits (battery_field fe l.tte r.state.batt_data.tte))),
           ("ttf", float64_bytes (fe.f64_bits (battery_field fe l.ttf r.state.batt_data.ttf)))])
        BATTERY_MAP_ENTRIES 10 (by decide) (by decide) (by simp [wrote, hm]; omega)
    simp only [battery_field] at e2 e3 ⊢
    simp only [e1, e2, e3, Bool.true_eq_false, if_false]
    simp only [wrote_wrote]
    simp [map_bytes, map_open, map_close, BATTERY_MAP_ENTRIES]

theorem read_modem_data_fail {σ F D : Type} (z : Zcbor σ D) (st : app_state F)
    (m : modem_reading) (zse : σ) (h : ¬ (m.voltage_err = 0 ∧ m.temp_err = 0)) :
    read_modem_data z st m zse = ⟨GOLIOTH_ERR_FAIL, zse, modem_errors m⟩ := by
  unfold read_modem_data modem_errors
  by_cases hv : m.voltage_err = 0
  · have ht : m.temp_err ≠ 0 := fun ht => h ⟨hv, ht⟩
    simp [hv, ht]
  · simp [hv]

theorem modem_errors_ok (m : modem_reading) (hv : m.voltage_err = 0) (ht : m.temp_err = 0) :
    modem_errors m = [] := by
  simp [modem_errors, hv, ht]

theorem zcbor_ref_new {D : Type} (c : Bool) (bits : D → Nat) (n size k : Nat) :
    (zcbor_ref c bits).new_encode_state n size k =
      { buf := [], payload_size := size, elem_count := k, num_backups := n, backups := [] } := by
  unfold zcbor_ref; rfl

theorem zcbor_ref_written {D : Type} (c : Bool) (bits : D → Nat) (s : zcbor_state) :
    (zcbor_ref c bits).written s = s.buf := by
  unfold zcbor_ref; rfl

theorem zcbor_ref_init {D : Type} (c : Bool) (bits : D → Nat) :
    (zcbor_ref c bits).new_encode_state NUM_SENSOR_KEY_VALUE_PAIRS CBOR_BUF_SIZE 1 =
      zse_init := by
  unfold zcbor_ref zse_init; rfl

theorem modem_entry_length_le {F : Type} (c : Bool) (st : app_state F) (m : modem_reading) :
    (tstr_bytes "modem" ++ map_bytes c
      [("vbat", int_bytes (to_int32 m.modem_voltage)),
       ("temp", int_bytes (to_int32 m.modem_temp)),
       ("success", int_bytes (to_int32 st.tx_success_counter)),
       ("fail", int_bytes (to_int32 st.tx_failure_counter))]).length ≤ 51 := by
  have h1 := int_bytes_length_le m.modem_voltage
  have h2 := int_bytes_length_le m.modem_temp
  have h3 := int_bytes_length_le st.tx_success_counter
  have h4 := int_bytes_length_le st.tx_failure_counter
  have hm : (tstr_bytes "modem").length = 6 := by decide
  have hk1 : (tstr_bytes "vbat").length = 5 := by decide
  have hk2 : (tstr_bytes "temp").length = 5 := by decide
  have hk3 : (tstr_bytes "success").length = 8 := by decide
  have hk4 : (tstr_bytes "fail").length = 5 := by decide
  cases c <;>
    simp [map_bytes, map_open, map_close, pairs_bytes, value_bytes, hm, hk1, hk2, hk3, hk4] <;>
    omega

theorem battery_entry_length_le (c : Bool) (b1 b2 b3 b4 b5 : Nat) :
    (tstr_bytes "battery" ++ map_bytes c
      [("V", float64_bytes b1), ("I", float64_bytes b2), ("SoC", float64_bytes b3),
       ("tte", float64_bytes b4), ("ttf", float64_bytes b5)]).length ≤ 71 := by
  have hm : (tstr_bytes "battery").length = 8 := by decide
  have hl := pairs_bytes_battery_length b1 b2 b3 b4 b5
  cases c <;> simp [map_bytes, map_open, map_close, value_bytes, hm, hl]

theorem modem_entries_length_le {F : Type} (c : Bool) (st : app_state F) (m : modem_reading) :
    (pairs_bytes (modem_entries c st m)).length ≤ 51 := by
  unfold modem_entries
  split_ifs
  · have := modem_entry_length_le c st m
    simpa [pairs_bytes] using this
  · simp [pairs_bytes]

theorem battery_entries_length_le {F D : Type} (c : Bool) (fe : FloatEnv F D)
    (l : battery_locals) (bd : battery_data F) :
    (pairs_bytes (battery_entries c fe l bd)).length ≤ 71 := by
  have := battery_entry_length_le c (fe.f64_bits (battery_field fe l.voltage bd.voltage))
    (fe.f64_bits (battery_field fe l.current bd.current)) (fe.f64_bits (battery_field fe l.soc bd.soc))
    (fe.f64_bits (battery_field fe l.tte bd.tte)) (fe.f64_bits (battery_field fe l.ttf bd.ttf))
  simpa [battery_entries, pairs_bytes] using this

theorem modem_entries_length_le_one {F : Type} (c : Bool) (st : app_state F)
    (m : modem_reading) : (modem_entries c st m).length ≤ 1 := by
  unfold modem_entries
  split_ifs <;> simp

theorem telemetry_frame_length_le {F D : Type} (c : Bool) (fe : FloatEnv F D)
    (st : app_state F) (env : cycle_env F) :
    (telemetry_frame_bytes c fe st env).length ≤ 124 := by
  have h1 := modem_entries_length_le c st env.modem
  have h2 := battery_entries_length_le c fe env.locals
    (get_battery_data fe st.fg env.gauge).state.batt_data
  have h3 := modem_entries_length_le_one c st env.modem
  have hp : ∀ a b : List (String × List Nat),
      pairs_bytes (a ++ b) = pairs_bytes a ++ pairs_bytes b := by
    intro a b
    induction a with
    | nil => simp [pairs_bytes]
    | cons x xs ih => obtain ⟨k, v⟩ := x; simp [pairs_bytes, ih]
  have hb : (battery_entries c fe env.locals
      (get_battery_data fe st.fg env.gauge).state.batt_data).length = 1 := by
    simp [battery_entries]
  unfold telemetry_frame_bytes map_bytes
  cases c
  · simp only [map_open, map_close, hp, List.length_append, Bool.false_eq_true, if_false,
      List.length_singleton]
    omega
  · have hv : (value_bytes 5 ((modem_entries true st env.modem).length + 1)).length = 1 := by
      have h23 : (modem_entries true st env.modem).length + 1 ≤ 23 := by omega
      simp [value_bytes, h23]
    simp only [map_open, map_close, hp, List.length_append, if_true, hb, hv, List.length_nil]
    omega

theorem wrote_nil (s : zcbor_state) : wrote s [] 0 = s := by
  simp [wrote]

theorem pairs_bytes_append (a b : List (String × List Nat)) :
    pairs_bytes (a ++ b) = pairs_bytes a ++ pairs_bytes b := by
  induction a with
  | nil => simp [pairs_bytes]
  | cons x xs ih => obtain ⟨k, v⟩ := x; simp [pairs_bytes, ih]

theorem ref_modem_any {F D : Type} (c : Bool) (bits : D → Nat) (st : app_state F)
    (m : modem_reading) (s : zcbor_state) (hs : s.buf.length + 51 ≤ s.payload_size)
    (hb : s.backups.length < s.num_backups) :
    read_modem_data (zcbor_ref c bits) st m s =
      ⟨if m.voltage_err = 0 ∧ m.temp_err = 0 then GOLIOTH_OK else GOLIOTH_ERR_FAIL,
        wrote s (pairs_bytes (modem_entries c st m))
          (entry_elems c 11 * (modem_entries c st m).length),
        modem_errors m⟩ := by
  by_cases h : m.voltage_err = 0 ∧ m.temp_err = 0
  · rw [ref_modem_ok c bits st m s h.1 h.2 hs hb, modem_errors_ok m h.1 h.2]
    simp [modem_entries, h, pairs_bytes, entry_elems]
  · rw [read_modem_data_fail _ st m s h]
    simp [modem_entries, h, pairs_bytes, wrote_nil]

theorem ref_battery_any {F D : Type} (c : Bool) (fe : FloatEnv F D)
    (fg : fuel_gauge_state F) (g : gauge_sample F) (l : battery_locals) (s : zcbor_state)
    (hs : s.buf.length + 71 ≤ s.payload_size) (hb : s.backups.length < s.num_backups) :
    read_battery_data (zcbor_ref c fe.f64_bits) fe fg g l s =
      ⟨GOLIOTH_OK,
        wrote s (pairs_bytes (battery_entries c fe l (get_battery_data fe fg g).state.batt_data))
          (entry_elems c 13),
        (get_battery_data fe fg g).state, (get_battery_data fe fg g).calls,
        (get_battery_data fe fg g).errors⟩ := by
  rw [ref_battery_ok c fe fg g l s hs hb]
  simp [battery_entries, pairs_bytes, entry_elems]

theorem ref_cycle_encode {F D : Type} (c : Bool) (fe : FloatEnv F D) (st : app_state F)
    (env : cycle_env F) :
    ((zcbor_ref c fe.f64_bits).map_start_encode ((zcbor_ref c fe.f64_bits).new_encode_state NUM_SENSOR_KEY_VALUE_PAIRS CBOR_BUF_SIZE 1) NUM_SENSOR_KEY_VALUE_PAIRS).1 = true ∧
    (read_modem_data (zcbor_ref c fe.f64_bits) st env.modem ((zcbor_ref c fe.f64_bits).map_start_encode ((zcbor_ref c fe.f64_bits).new_encode_state NUM_SENSOR_KEY_VALUE_PAIRS CBOR_BUF_SIZE 1) NUM_SENSOR_KEY_VALUE_PAIRS).2).status ≠ GOLIOTH_ERR_QUEUE_FULL ∧
    (read_modem_data (zcbor_ref c fe.f64_bits) st env.modem ((zcbor_ref c fe.f64_bits).map_start_encode ((zcbor_ref c fe.f64_bits).new_encode_state NUM_SENSOR_KEY_VALUE_PAIRS CBOR_BUF_SIZE 1) NUM_SENSOR_KEY_VALUE_PAIRS).2).errors = modem_errors env.modem ∧
    (read_battery_data (zcbor_ref c fe.f64_bits) fe st.fg env.gauge env.locals (read_modem_data (zcbor_ref c fe.f64_bits) st env.modem ((zcbor_ref c fe.f64_bits).map_start_encode ((zcbor_ref c fe.f64_bits).new_encode_state NUM_SENSOR_KEY_VALUE_PAIRS CBOR_BUF_SIZE 1) NUM_SENSOR_KEY_VALUE_PAIRS).2).zse).status = GOLIOTH_OK ∧
    (read_battery_data (zcbor_ref c fe.f64_bits) fe st.fg env.gauge env.locals (read_modem_data (zcbor_ref c fe.f64_bits) st env.modem ((zcbor_ref c fe.f64_bits).map_start_encode ((zcbor_ref c fe.f64_bits).new_encode_state NUM_SENSOR_KEY_VALUE_PAIRS CBOR_BUF_SIZE 1) NUM_SENSOR_KEY_VALUE_PAIRS).2).zse).fg = (get_battery_data fe st.fg env.gauge).state ∧
    (read_battery_data (zcbor_ref c fe.f64_bits) fe st.fg env.gauge env.locals (read_modem_data (zcbor_ref c fe.f64_bits) st env.modem ((zcbor_ref c fe.f64_bits).map_start_encode ((zcbor_ref c fe.f64_bits).new_encode_state NUM_SENSOR_KEY_VALUE_PAIRS CBOR_BUF_SIZE 1) NUM_SENSOR_KEY_VALUE_PAIRS).2).zse).calls = (get_battery_data fe st.fg env.gauge).calls ∧
    (read_battery_data (zcbor_ref c fe.f64_bits) fe st.fg env.gauge env.locals (read_modem_data (zcbor_ref c fe.f64_bits) st env.modem ((zcbor_ref c fe.f64_bits).map_start_encode ((zcbor_ref c fe.f64_bits).new_encode_state NUM_SENSOR_KEY_VALUE_PAIRS CBOR_BUF_SIZE 1) NUM_SENSOR_KEY_VALUE_PAIRS).2).zse).errors = (get_battery_data fe st.fg env.gauge).errors ∧
    ((zcbor_ref c fe.f64_bits).map_end_encode (read_battery_data (zcbor_ref c fe.f64_bits) fe st.fg env.gauge env.locals (read_modem_data (zcbor_ref c fe.f64_bits) st env.modem ((zcbor_ref c fe.f64_bits).map_start_encode ((zcbor_ref c fe.f64_bits).new_encode_state NUM_SENSOR_KEY_VALUE_PAIRS CBOR_BUF_SIZE 1) NUM_SENSOR_KEY_VALUE_PAIRS).2).zse).zse NUM_SENSOR_KEY_VALUE_PAIRS).1 = true ∧
    (zcbor_ref c fe.f64_bits).written ((zcbor_ref c fe.f64_bits).map_end_encode (read_battery_data (zcbor_ref c fe.f64_bits) fe st.fg env.gauge env.locals (read_modem_data (zcbor_ref c fe.f64_bits) st env.modem ((zcbor_ref c fe.f64_bits).map_start_encode ((zcbor_ref c fe.f64_bits).new_encode_state NUM_SENSOR_KEY_VALUE_PAIRS CBOR_BUF_SIZE 1) NUM_SENSOR_KEY_VALUE_PAIRS).2).zse).zse NUM_SENSOR_KEY_VALUE_PAIRS).2 = telemetry_frame_bytes c fe st env := by
  have hme := modem_entries_length_le c st env.modem
  have hbe := battery_entries_length_le c fe env.locals
    (get_battery_data fe st.fg env.gauge).state.batt_data
  have hn := modem_entries_length_le_one c st env.modem
  have hst : (if env.modem.voltage_err = 0 ∧ env.modem.temp_err = 0 then GOLIOTH_OK
      else GOLIOTH_ERR_FAIL) ≠ GOLIOTH_ERR_QUEUE_FULL := by
    split_ifs <;> simp
  rw [zcbor_ref_init]
  cases c
  · have eo := (zcbor_ref_start false fe.f64_bits zse_init NUM_SENSOR_KEY_VALUE_PAIRS).trans
      ((ref_map_start_indef _ _).trans (put_bytes_ok _ _ (by simp [zse_init, CBOR_BUF_SIZE])))
    have em := ref_modem_any false fe.f64_bits st env.modem (wrote zse_init [0xBF] 1)
      (by simp [wrote, zse_init, CBOR_BUF_SIZE])
      (by simp [wrote, zse_init, NUM_SENSOR_KEY_VALUE_PAIRS])
    have eb := ref_battery_any false fe st.fg env.gauge env.locals
      (wrote (wrote zse_init [0xBF] 1) (pairs_bytes (modem_entries false st env.modem))
        (entry_elems false 11 * (modem_entries false st env.modem).length))
      (by simp [wrote, zse_init, CBOR_BUF_SIZE]; omega)
      (by simp [wrote, zse_init, NUM_SENSOR_KEY_VALUE_PAIRS])
    have ee := map_end_indef_ok fe.f64_bits
      (wrote (wrote (wrote zse_init [0xBF] 1) (pairs_bytes (modem_entries false st env.modem))
        (entry_elems false 11 * (modem_entries false st env.modem).length))
        (pairs_bytes (battery_entries false fe env.locals
          (get_battery_data fe st.fg env.gauge).state.batt_data))
        (entry_elems false 13)) NUM_SENSOR_KEY_VALUE_PAIRS
      (by simp [wrote, zse_init, CBOR_BUF_SIZE]; omega)
    simp only [eo, em, eb, ee, zcbor_ref_written]
    refine ⟨trivial, hst, trivial, trivial, trivial, trivial, trivial, trivial, ?_⟩
    simp [wrote, zse_init, telemetry_frame_bytes, map_bytes, map_open, map_close,
      pairs_bytes_append]
  · have eo := (zcbor_ref_start true fe.f64_bits zse_init NUM_SENSOR_KEY_VALUE_PAIRS).trans
      (ref_map_start_canonical zse_init NUM_SENSOR_KEY_VALUE_PAIRS
        (by simp [zse_init, NUM_SENSOR_KEY_VALUE_PAIRS])
        (by simp [zse_init, CBOR_BUF_SIZE, value_bytes, NUM_SENSOR_KEY_VALUE_PAIRS]))
    have em := ref_modem_any true fe.f64_bits st env.modem
      (opened zse_init (value_bytes 5 NUM_SENSOR_KEY_VALUE_PAIRS))
      (by simp [opened, zse_init, CBOR_BUF_SIZE, value_bytes, NUM_SENSOR_KEY_VALUE_PAIRS])
      (by simp [opened, zse_init, NUM_SENSOR_KEY_VALUE_PAIRS])
    have eb := ref_battery_any true fe st.fg env.gauge env.locals
      (wrote (opened zse_init (value_bytes 5 NUM_SENSOR_KEY_VALUE_PAIRS))
        (pairs_bytes (modem_entries true st env.modem))
        (entry_elems true 11 * (modem_entries true st env.modem).length))
      (by simp [wrote, opened, zse_init, CBOR_BUF_SIZE, value_bytes,
            NUM_SENSOR_KEY_VALUE_PAIRS]; omega)
      (by simp [wrote, opened, zse_init, NUM_SENSOR_KEY_VALUE_PAIRS])
    have ee := map_end_canonical_ok fe.f64_bits zse_init
      (pairs_bytes (modem_entries true st env.modem) ++
        pairs_bytes (battery_entries true fe env.locals
          (get_battery_data fe st.fg env.gauge).state.batt_data))
      NUM_SENSOR_KEY_VALUE_PAIRS
      (entry_elems true 11 * (modem_entries true st env.modem).length +
        entry_elems true 13)
      (by decide) (by simp [entry_elems]; omega) (by simp [zse_init, CBOR_BUF_SIZE])
    simp only [eo, em, eb]
    simp only [wrote_wrote]
    simp only [ee, zcbor_ref_written]
    refine ⟨trivial, hst, trivial, trivial, trivial, trivial, trivial, trivial, ?_⟩
    have hc : (2 * (modem_entries true st env.modem).length + 2) / 2 =
        (modem_entries true st env.modem).length + 1 := by omega
    simp [wrote, zse_init, telemetry_frame_bytes, map_bytes, map_open, map_close,
      pairs_bytes_append, battery_entries, entry_elems, hc]

theorem ref_cycle_published {F D : Type} (c : Bool) (fe : FloatEnv F D) (st : app_state F)
    (env : cycle_env F) :
    (app_sensors_read_and_stream (zcbor_ref c fe.f64_bits) fe st env).published =
      if env.connected then
        [⟨"sensor", content_type.GOLIOTH_CONTENT_TYPE_CBOR, telemetry_frame_bytes c fe st env⟩]
      else [] := by
  obtain ⟨h1, h2, _, h4, _, _, _, _, h9⟩ := ref_cycle_encode c fe st env
  unfold app_sensors_read_and_stream
  simp only [h1, h4, h9, Bool.true_eq_false, if_false, if_neg h2]
  cases env.connected
  · simp
  · by_cases he : env.stream_err = 0 <;> simp [he]

theorem ref_cycle_errors {F D : Type} (c : Bool) (fe : FloatEnv F D) (st : app_state F)
    (env : cycle_env F) :
    (app_sensors_read_and_stream (zcbor_ref c fe.f64_bits) fe st env).errors =
      modem_errors env.modem ++ (get_battery_data fe st.fg env.gauge).errors ++
        (if env.connected = true ∧ env.stream_err ≠ 0 then
          ["Failed to send sensor data to Golioth: %d"] else []) := by
  obtain ⟨h1, h2, h3, h4, _, _, h7, h8, _⟩ := ref_cycle_encode c fe st env
  unfold app_sensors_read_and_stream
  simp only [h1, h3, h4, h7, h8, Bool.true_eq_false, if_false, if_neg h2]
  cases env.connected
  · simp
  · by_cases he : env.stream_err = 0 <;> simp [he]

/-! ## Decoding what the reference encoder writes -/

theorem be_value_8 (v : Nat) (h : v < 18446744073709551616) : be_value (be_bytes 8 v) = v := by
  simp only [be_bytes, be_value, List.foldl]
  omega

theorem decode_arg_value_bytes (major v : Nat) (hm : major < 8) (hv : v < 4294967296)
    (rest : List Nat) :
    ∃ b r, value_bytes major v ++ rest = b :: r ∧ b ≤ 255 ∧ b / 32 = major ∧
      decode_arg (b % 32) r = some (v, rest) := by
  unfold value_bytes
  split_ifs with h1 h2 h3
  · refine ⟨_, _, rfl, by omega, by omega, ?_⟩
    have : (major * 32 + v) % 32 = v := by omega
    simp [decode_arg, this]; omega
  · refine ⟨_, _, rfl, by omega, by omega, ?_⟩
    have : (major * 32 + 24) % 32 = 24 := by omega
    simp [decode_arg, this, be_bytes, be_value]
    omega
  · refine ⟨_, _, rfl, by omega, by omega, ?_⟩
    have : (major * 32 + 25) % 32 = 25 := by omega
    simp [decode_arg, this, be_bytes, be_value]
    omega
  · refine ⟨_, _, rfl, by omega, by omega, ?_⟩
    have : (major * 32 + 26) % 32 = 26 := by omega
    simp [decode_arg, this, be_bytes, be_value]
    omega

theorem decode_item_int (fuel : Nat) (v : Int) (h1 : -2147483648 ≤ v) (h2 : v < 2147483648)
    (rest : List Nat) :
    decode_item (fuel + 1) (int_bytes v ++ rest) = some (cbor.int v, rest) := by
  unfold int_bytes
  split_ifs with h
  · obtain ⟨b, r, hb, hle, hmaj, harg⟩ := decode_arg_value_bytes 0 v.toNat (by omega) (by omega) rest
    rw [hb]
    simp [decode_item, hmaj, harg]
    omega
  · obtain ⟨b, r, hb, hle, hmaj, harg⟩ :=
      decode_arg_value_bytes 1 (-1 - v).toNat (by omega) (by omega) rest
    rw [hb]
    simp [decode_item, hmaj, harg]
    omega

theorem decode_item_tstr (fuel : Nat) (lit : String) (h : (lit_bytes lit).length < 4294967296)
    (rest : List Nat) :
    decode_item (fuel + 1) (tstr_bytes lit ++ rest) = some (cbor.tstr (lit_bytes lit), rest) := by
  unfold tstr_bytes
  rw [List.append_assoc]
  obtain ⟨b, r, hb, hle, hmaj, harg⟩ :=
    decode_arg_value_bytes 3 (lit_bytes lit).length (by omega) h (lit_bytes lit ++ rest)
  rw [hb]
  simp [decode_item, hmaj, harg]
  omega

theorem decode_float64_aux (fuel w : Nat) (hw : w < 18446744073709551616) (rest : List Nat) :
    decode_item (fuel + 1) (0xFB :: (be_bytes 8 w ++ rest)) = some (cbor.float64 w, rest) := by
  have h := be_value_8 w hw
  have hl : (be_bytes 8 w).length = 8 := by simp [be_bytes]
  have ht : List.take 8 (be_bytes 8 w ++ rest) = be_bytes 8 w := by
    exact List.take_left' hl
  have hd : List.drop 8 (be_bytes 8 w ++ rest) = rest := by
    exact List.drop_left' hl
  simp [decode_item, ht, hd, h, hl]

theorem decode_item_float64 (fuel : Nat) (bits : Nat) (rest : List Nat) :
    decode_item (fuel + 1) (float64_bytes bits ++ rest) =
      some (cbor.float64 (bits % 18446744073709551616), rest) :=
  decode_float64_aux fuel (bits % 18446744073709551616) (Nat.mod_lt _ (by norm_num)) rest

theorem decode_indef_nil (fuel : Nat) (rest : List Nat) :
    decode_indef (fuel + 1) (0xFF :: rest) = some ([], rest) := by
  simp [decode_indef]

theorem decode_indef_cons (fuel b : Nat) (bytes r1 r2 r3 : List Nat) (k v : cbor)
    (es : List (cbor × cbor)) (hb : b ≠ 0xFF)
    (hk : decode_item fuel (b :: bytes) = some (k, r1))
    (hv : decode_item fuel r1 = some (v, r2))
    (hes : decode_indef fuel r2 = some (es, r3)) :
    decode_indef (fuel + 1) (b :: bytes) = some ((k, v) :: es, r3) := by
  rw [decode_indef]
  · simp [hk, hv, hes]
  · intro r h
    simp at h
    exact hb h.1

theorem decodes_int (n : Nat) (v : Int) (h1 : -2147483648 ≤ v) (h2 : v < 2147483648) :
    Decodes (int_bytes v) (cbor.int v) (n + 1) :=
  fun fuel rest => decode_item_int (fuel + n) v h1 h2 rest

theorem decodes_tstr (n : Nat) (lit : String) (h : (lit_bytes lit).length < 4294967296) :
    Decodes (tstr_bytes lit) (cbor.tstr (lit_bytes lit)) (n + 1) :=
  fun fuel rest => decode_item_tstr (fuel + n) lit h rest

theorem decodes_float64 (n : Nat) (bits : Nat) :
    Decodes (float64_bytes bits) (cbor.float64 (bits % 18446744073709551616)) (n + 1) :=
  fun fuel rest => decode_item_float64 (fuel + n) bits rest

theorem value_bytes_head (major v : Nat) :
    ∃ b r, value_bytes major v = b :: r ∧ b < major * 32 + 32 := by
  unfold value_bytes
  split_ifs
  · exact ⟨_, _, rfl, by omega⟩
  · exact ⟨_, _, rfl, by omega⟩
  · exact ⟨_, _, rfl, by omega⟩
  · exact ⟨_, _, rfl, by omega⟩
  · exact ⟨_, _, rfl, by omega⟩

theorem tstr_bytes_head (lit : String) :
    ∃ b r, tstr_bytes lit = b :: r ∧ b ≠ 0xFF := by
  obtain ⟨b, r, h, hb⟩ := value_bytes_head 3 (lit_bytes lit).length
  exact ⟨b, r ++ lit_bytes lit, by simp [tstr_bytes, h], by omega⟩

theorem decodes_indef_nil (n : Nat) : DecodesIndef [] [] (n + 1) :=
  fun fuel rest => decode_indef_nil (fuel + n) rest

theorem decodes_indef_cons (n : Nat) (lit : String) (h : (lit_bytes lit).length < 4294967296)
    (vb eb : List Nat) (v : cbor) (es : List (cbor × cbor))
    (hv : Decodes vb v (n + 1)) (hes : DecodesIndef eb es (n + 1)) :
    DecodesIndef (tstr_bytes lit ++ vb ++ eb) ((cbor.tstr (lit_bytes lit), v) :: es)
      (n + 2) := by
  intro fuel rest
  obtain ⟨b, r, hb, hne⟩ := tstr_bytes_head lit
  have hk := decode_item_tstr (fuel + n) lit h (vb ++ (eb ++ 0xFF :: rest))
  have e : tstr_bytes lit ++ vb ++ eb ++ 0xFF :: rest =
      b :: (r ++ (vb ++ (eb ++ 0xFF :: rest))) := by
    simp [hb]
  rw [hb, List.cons_append] at hk
  rw [e]
  exact decode_indef_cons (fuel + n + 1) b _ _ _ _ _ _ _ hne hk (hv fuel _) (hes fuel rest)

theorem decodes_map_indef (n : Nat) (eb : List Nat) (es : List (cbor × cbor))
    (hes : DecodesIndef eb es n) : Decodes (0xBF :: (eb ++ [0xFF])) (cbor.map es) (n + 1) := by
  intro fuel rest
  have := hes fuel rest
  simp [decode_item, ← Nat.add_assoc, this]

theorem decodes_pairs_nil (n : Nat) : DecodesPairs [] 0 [] (n + 1) := by
  intro fuel rest
  simp [← Nat.add_assoc, decode_pairs]

theorem decodes_pairs_cons (n cnt : Nat) (lit : String) (h : (lit_bytes lit).length < 4294967296)
    (vb eb : List Nat) (v : cbor) (es : List (cbor × cbor))
    (hv : Decodes vb v (n + 1)) (hes : DecodesPairs eb cnt es (n + 1)) :
    DecodesPairs (tstr_bytes lit ++ vb ++ eb) (cnt + 1) ((cbor.tstr (lit_bytes lit), v) :: es)
      (n + 2) := by
  intro fuel rest
  have hk := decode_item_tstr (fuel + n) lit h (vb ++ (eb ++ rest))
  have hv1 := hv fuel (eb ++ rest)
  have hes1 := hes fuel rest
  rw [show fuel + (n + 2) = (fuel + n + 1) + 1 by omega]
  rw [show fuel + (n + 1) = fuel + n + 1 by omega] at hv1 hes1
  simp [decode_pairs, hk, hv1, hes1]

theorem decodes_map_def (n cnt : Nat) (hc : cnt ≤ 23) (eb : List Nat)
    (es : List (cbor × cbor)) (hes : DecodesPairs eb cnt es n) :
    Decodes (value_bytes 5 cnt ++ eb) (cbor.map es) (n + 1) := by
  intro fuel rest
  have := hes fuel rest
  have h1 : (5 * 32 + cnt) / 32 = 5 := by omega
  have h2 : (5 * 32 + cnt) % 32 = cnt := by omega
  have h3 : ¬ 255 < 5 * 32 + cnt := by omega
  have h4 : cnt ≠ 31 := by omega
  have h5 : cnt < 24 := by omega
  simp only [value_bytes, hc, if_true, List.cons_append, List.nil_append]
  rw [show fuel + (n + 1) = (fuel + n) + 1 by omega, decode_item]
  simp [h1, h2, h3, h4, decode_arg, h5, this]

theorem decode_of_decodes (bytes : List Nat) (c : cbor) (n : Nat) (h : Decodes bytes c n)
    (hn : n ≤ 2 * bytes.length + 2) : decode bytes = some c := by
  obtain ⟨k, hk⟩ := Nat.exists_eq_add_of_le hn
  have := h k []
  rw [List.append_nil, Nat.add_comm] at this
  simp [decode, hk, this]

theorem decodes_mono (bytes : List Nat) (c : cbor) (n m : Nat) (h : Decodes bytes c n)
    (hnm : n ≤ m) : Decodes bytes c m := by
  obtain ⟨k, rfl⟩ := Nat.exists_eq_add_of_le hnm
  intro fuel rest
  have := h (fuel + k) rest
  rwa [Nat.add_assoc, Nat.add_comm k n] at this

theorem decodes_pairs_bytes_indef (k : Nat) (t : List (String × List Nat × cbor))
    (hk : ∀ e ∈ t, (lit_bytes e.1).length < 4294967296)
    (hv : ∀ e ∈ t, Decodes e.2.1 e.2.2 (k + 1)) :
    DecodesIndef (pairs_bytes (t.map fun e => (e.1, e.2.1)))
      (t.map fun e => (cbor.tstr (lit_bytes e.1), e.2.2)) (k + t.length + 1) := by
  induction t with
  | nil => exact decodes_indef_nil k
  | cons e t ih =>
    have ih' := ih (fun x hx => hk x (List.mem_cons_of_mem _ hx))
      (fun x hx => hv x (List.mem_cons_of_mem _ hx))
    have hve := decodes_mono _ _ _ (k + t.length + 1) (hv e (List.mem_cons_self _ _))
      (by omega)
    have := decodes_indef_cons (k + t.length) e.1 (hk e (List.mem_cons_self _ _)) e.2.1
      (pairs_bytes (t.map fun e => (e.1, e.2.1))) e.2.2 _ hve ih'
    simpa [pairs_bytes, Nat.add_assoc] using this

theorem decodes_pairs_bytes_def (k : Nat) (t : List (String × List Nat × cbor))
    (hk : ∀ e ∈ t, (lit_bytes e.1).length < 4294967296)
    (hv : ∀ e ∈ t, Decodes e.2.1 e.2.2 (k + 1)) :
    DecodesPairs (pairs_bytes (t.map fun e => (e.1, e.2.1))) t.length
      (t.map fun e => (cbor.tstr (lit_bytes e.1), e.2.2)) (k + t.length + 1) := by
  induction t with
  | nil => exact decodes_pairs_nil k
  | cons e t ih =>
    have ih' := ih (fun x hx => hk x (List.mem_cons_of_mem _ hx))
      (fun x hx => hv x (List.mem_cons_of_mem _ hx))
    have hve := decodes_mono _ _ _ (k + t.length + 1) (hv e (List.mem_cons_self _ _))
      (by omega)
    have := decodes_pairs_cons (k + t.length) t.length e.1 (hk e (List.mem_cons_self _ _))
      e.2.1 (pairs_bytes (t.map fun e => (e.1, e.2.1))) e.2.2 _ hve ih'
    simpa [pairs_bytes, Nat.add_assoc] using this

theorem decodes_map_bytes (canonical : Bool) (k : Nat) (t : List (String × List Nat × cbor))
    (hk : ∀ e ∈ t, (lit_bytes e.1).length < 4294967296)
    (hv : ∀ e ∈ t, Decodes e.2.1 e.2.2 (k + 1)) (hl : t.length ≤ 23) :
    Decodes (map_bytes canonical (t.map fun e => (e.1, e.2.1)))
      (cbor.map (t.map fun e => (cbor.tstr (lit_bytes e.1), e.2.2))) (k + t.length + 2) := by
  cases canonical
  · have := decodes_map_indef _ _ _ (decodes_pairs_bytes_indef k t hk hv)
    simpa [map_bytes, map_open, map_close] using this
  · have := decodes_map_def _ t.length hl _ _ (decodes_pairs_bytes_def k t hk hv)
    simpa [map_bytes, map_open, map_close] using this

theorem to_int32_range (x : Int) : -2147483648 ≤ to_int32 x ∧ to_int32 x < 2147483648 := by
  unfold to_int32; omega

theorem to_int32_id (x : Int) (h1 : -2147483648 ≤ x) (h2 : x < 2147483648) :
    to_int32 x = x := by
  unfold to_int32; omega

theorem decodes_modem_map (c : Bool) (v1 v2 v3 v4 : Int)
    (h1 : -2147483648 ≤ v1 ∧ v1 < 2147483648) (h2 : -2147483648 ≤ v2 ∧ v2 < 2147483648)
    (h3 : -2147483648 ≤ v3 ∧ v3 < 2147483648) (h4 : -2147483648 ≤ v4 ∧ v4 < 2147483648) :
    Decodes
      (map_bytes c
        [("vbat", int_bytes v1), ("temp", int_bytes v2), ("success", int_bytes v3),
         ("fail", int_bytes v4)])
      (modem_tree v1 v2 v3 v4) 6 := by
  have h := decodes_map_bytes c 0
    [("vbat", int_bytes v1, cbor.int v1), ("temp", int_bytes v2, cbor.int v2),
     ("success", int_bytes v3, cbor.int v3), ("fail", int_bytes v4, cbor.int v4)]
    (by
      intro e he
      simp only [List.mem_cons, List.mem_singleton, List.not_mem_nil, or_false] at he
      rcases he with rfl | rfl | rfl | rfl <;> simp [lit_bytes])
    (by
      intro e he
      simp only [List.mem_cons, List.mem_singleton, List.not_mem_nil, or_false] at he
      rcases he with rfl | rfl | rfl | rfl
      · exact decodes_int 0 _ h1.1 h1.2
      · exact decodes_int 0 _ h2.1 h2.2
      · exact decodes_int 0 _ h3.1 h3.2
      · exact decodes_int 0 _ h4.1 h4.2)
    (by simp)
  simpa [modem_tree] using h

theorem decodes_battery_map (c : Bool) (b1 b2 b3 b4 b5 : Nat) :
    Decodes
      (map_bytes c
        [("V", float64_bytes b1), ("I", float64_bytes b2), ("SoC", float64_bytes b3),
         ("tte", float64_bytes b4), ("ttf", float64_bytes b5)])
      (battery_tree (b1 % 18446744073709551616) (b2 % 18446744073709551616)
        (b3 % 18446744073709551616) (b4 % 18446744073709551616)
        (b5 % 18446744073709551616)) 7 := by
  have h := decodes_map_bytes c 0
    [("V", float64_bytes b1, cbor.float64 (b1 % 18446744073709551616)),
     ("I", float64_bytes b2, cbor.float64 (b2 % 18446744073709551616)),
     ("SoC", float64_bytes b3, cbor.float64 (b3 % 18446744073709551616)),
     ("tte", float64_bytes b4, cbor.float64 (b4 % 18446744073709551616)),
     ("ttf", float64_bytes b5, cbor.float64 (b5 % 18446744073709551616))]
    (by
      intro e he
      simp only [List.mem_cons, List.mem_singleton, List.not_mem_nil, or_false] at he
      rcases he with rfl | rfl | rfl | rfl | rfl <;> simp [lit_bytes])
    (by
      intro e he
      simp only [List.mem_cons, List.mem_singleton, List.not_mem_nil, or_false] at he
      rcases he with rfl | rfl | rfl | rfl | rfl <;> exact decodes_float64 0 _)
    (by simp)
  simpa [battery_tree] using h

theorem telemetry_frame_length_ge {F D : Type} (c : Bool) (fe : FloatEnv F D)
    (st : app_state F) (env : cycle_env F) :
    8 ≤ (telemetry_frame_bytes c fe st env).length := by
  have hm : (tstr_bytes "battery").length = 8 := by decide
  simp only [telemetry_frame_bytes, map_bytes, pairs_bytes_append, battery_entries, pairs_bytes,
    List.length_append, hm]
  omega

theorem frame_decodes {F D : Type} (c : Bool) (fe : FloatEnv F D) (st : app_state F)
    (env : cycle_env F) (hv : env.modem.voltage_err = 0) (ht : env.modem.temp_err = 0) :
    decode (telemetry_frame_bytes c fe st env) =
      some (telemetry_tree
        (modem_tree (to_int32 env.modem.modem_voltage) (to_int32 env.modem.modem_temp)
          (to_int32 st.tx_success_counter) (to_int32 st.tx_failure_counter))
        (battery_tree
          (battery_bits fe env.locals.voltage (get_battery_data fe st.fg env.gauge).state.batt_data.voltage)
          (battery_bits fe env.locals.current (get_battery_data fe st.fg env.gauge).state.batt_data.current)
          (battery_bits fe env.locals.soc (get_battery_data fe st.fg env.gauge).state.batt_data.soc)
          (battery_bits fe env.locals.tte (get_battery_data fe st.fg env.gauge).state.batt_data.tte)
          (battery_bits fe env.locals.ttf (get_battery_data fe st.fg env.gauge).state.batt_data.ttf))) := by
  have hlen := telemetry_frame_length_ge c fe st env
  generalize hbd : (get_battery_data fe st.fg env.gauge).state.batt_data = bd at *
  have hM := decodes_mono _ _ _ 7
    (decodes_modem_map c (to_int32 env.modem.modem_voltage) (to_int32 env.modem.modem_temp)
      (to_int32 st.tx_success_counter) (to_int32 st.tx_failure_counter)
      (to_int32_range _) (to_int32_range _) (to_int32_range _) (to_int32_range _)) (by decide)
  have hB := decodes_battery_map c (fe.f64_bits (battery_field fe env.locals.voltage bd.voltage))
    (fe.f64_bits (battery_field fe env.locals.current bd.current)) (fe.f64_bits (battery_field fe env.locals.soc bd.soc))
    (fe.f64_bits (battery_field fe env.locals.tte bd.tte)) (fe.f64_bits (battery_field fe env.locals.ttf bd.ttf))
  have h := decodes_map_bytes c 6
    [("modem", map_bytes c
        [("vbat", int_bytes (to_int32 env.modem.modem_voltage)),
         ("temp", int_bytes (to_int32 env.modem.modem_temp)),
         ("success", int_bytes (to_int32 st.tx_success_counter)),
         ("fail", int_bytes (to_int32 st.tx_failure_counter))],
       modem_tree (to_int32 env.modem.modem_voltage) (to_int32 env.modem.modem_temp)
         (to_int32 st.tx_success_counter) (to_int32 st.tx_failure_counter)),
     ("battery", map_bytes c
        [("V", float64_bytes (fe.f64_bits (battery_field fe env.locals.voltage bd.voltage))),
         ("I", float64_bytes (fe.f64_bits (battery_field fe env.locals.current bd.current))),
         ("SoC", float64_bytes (fe.f64_bits (battery_field fe env.locals.soc bd.soc))),
         ("tte", float64_bytes (fe.f64_bits (battery_field fe env.locals.tte bd.tte))),
         ("ttf", float64_bytes (fe.f64_bits (battery_field fe env.locals.ttf bd.ttf)))],
       battery_tree (battery_bits fe env.locals.voltage bd.voltage) (battery_bits fe env.locals.current bd.current)
         (battery_bits fe env.locals.soc bd.soc) (battery_bits fe env.locals.tte bd.tte) (battery_bits fe env.locals.ttf bd.ttf))]
    (by
      intro e he
      simp only [List.mem_cons, List.mem_singleton, List.not_mem_nil, or_false] at he
      rcases he with rfl | rfl <;> simp [lit_bytes])
    (by
      intro e he
      simp only [List.mem_cons, List.mem_singleton, List.not_mem_nil, or_false] at he
      rcases he with rfl | rfl
      · exact hM
      · exact hB)
    (by simp)
  have hd := decode_of_decodes _ _ _ h
  simp only [List.map_cons, List.map_nil, List.length_cons, List.length_nil] at hd
  have hf : telemetry_frame_bytes c fe st env = map_bytes c
      [("modem", map_bytes c
        [("vbat", int_bytes (to_int32 env.modem.modem_voltage)),
         ("temp", int_bytes (to_int32 env.modem.modem_temp)),
         ("success", int_bytes (to_int32 st.tx_success_counter)),
         ("fail", int_bytes (to_int32 st.tx_failure_counter))]),
       ("battery", map_bytes c
        [("V", float64_bytes (fe.f64_bits (battery_field fe env.locals.voltage bd.voltage))),
         ("I", float64_bytes (fe.f64_bits (battery_field fe env.locals.current bd.current))),
         ("SoC", float64_bytes (fe.f64_bits (battery_field fe env.locals.soc bd.soc))),
         ("tte", float64_bytes (fe.f64_bits (battery_field fe env.locals.tte bd.tte))),
         ("ttf", float64_bytes (fe.f64_bits (battery_field fe env.locals.ttf bd.ttf)))])] := by
    simp [telemetry_frame_bytes, modem_entries, battery_entries, hv, ht, hbd]
  rw [hf] at hlen ⊢
  rw [hd (by omega)]
  rfl

/-! ## The frame (claim C1) -/

/-- C1: when both modem reads succeed and the client is connected, one cycle with the
reference encoder (in either build mode, where every encode step succeeds) publishes one
frame, and that frame decodes to one map with exactly the two entries `"modem"` and
`"battery"` in this order (`telemetry_tree`): the first a map of the 4 integers `vbat`,
`temp`, `success`, `fail` (`modem_tree`), the second a map of the 5 binary64 floats `V`,
`I`, `SoC`, `tte`, `ttf` (`battery_tree`). -/
theorem frame_is_modem_then_battery_map {F D : Type} (canonical : Bool) (fe : FloatEnv F D)
    (st : app_state F) (env : cycle_env F) (hv : env.modem.voltage_err = 0)
    (ht : env.modem.temp_err = 0) (hc : env.connected = true) :
    ∃ payload,
      (app_sensors_read_and_stream (zcbor_ref canonical fe.f64_bits) fe st env).published =
        [⟨"sensor", content_type.GOLIOTH_CONTENT_TYPE_CBOR, payload⟩] ∧
      decode payload =
        some (telemetry_tree
          (modem_tree (to_int32 env.modem.modem_voltage) (to_int32 env.modem.modem_temp)
            (to_int32 st.tx_success_counter) (to_int32 st.tx_failure_counter))
          (battery_tree
            (battery_bits fe env.locals.voltage (get_battery_data fe st.fg env.gauge).state.batt_data.voltage)
            (battery_bits fe env.locals.current (get_battery_data fe st.fg env.gauge).state.batt_data.current)
            (battery_bits fe env.locals.soc (get_battery_data fe st.fg env.gauge).state.batt_data.soc)
            (battery_bits fe env.locals.tte (get_battery_data fe st.fg env.gauge).state.batt_data.tte)
            (battery_bits fe env.locals.ttf (get_battery_data fe st.fg env.gauge).state.batt_data.ttf))) := by
  refine ⟨telemetry_frame_bytes canonical fe st env, ?_, ?_⟩
  · rw [ref_cycle_published, hc]; rfl
  · exact frame_decodes canonical fe st env hv ht

/-- C1, at a concrete cycle: modem 4012 mV and -7 degrees, counters 3 and 2, client
connected, indefinite-length maps. -/
theorem frame_is_modem_then_battery_map_witness :
    (sample_env 0 0 true 0).modem.voltage_err = 0 ∧
    (sample_env 0 0 true 0).modem.temp_err = 0 ∧
    (sample_env 0 0 true 0).connected = true ∧
    ∃ payload,
      (app_sensors_read_and_stream (zcbor_ref false ideal_float.f64_bits) ideal_float
        (sample_state 3 2) (sample_env 0 0 true 0)).published =
        [⟨"sensor", content_type.GOLIOTH_CONTENT_TYPE_CBOR, payload⟩] ∧
      decode payload =
        some (telemetry_tree
          (modem_tree (to_int32 (sample_env 0 0 true 0).modem.modem_voltage)
            (to_int32 (sample_env 0 0 true 0).modem.modem_temp)
            (to_int32 (sample_state 3 2).tx_success_counter)
            (to_int32 (sample_state 3 2).tx_failure_counter))
          (battery_tree
            (battery_bits ideal_float (sample_env 0 0 true 0).locals.voltage (get_battery_data ideal_float (sample_state 3 2).fg
              (sample_env 0 0 true 0).gauge).state.batt_data.voltage)
            (battery_bits ideal_float (sample_env 0 0 true 0).locals.current (get_battery_data ideal_float (sample_state 3 2).fg
              (sample_env 0 0 true 0).gauge).state.batt_data.current)
            (battery_bits ideal_float (sample_env 0 0 true 0).locals.soc (get_battery_data ideal_float (sample_state 3 2).fg
              (sample_env 0 0 true 0).gauge).state.batt_data.soc)
            (battery_bits ideal_float (sample_env 0 0 true 0).locals.tte (get_battery_data ideal_float (sample_state 3 2).fg
              (sample_env 0 0 true 0).gauge).state.batt_data.tte)
            (battery_bits ideal_float (sample_env 0 0 true 0).locals.ttf (get_battery_data ideal_float (sample_state 3 2).fg
              (sample_env 0 0 true 0).gauge).state.batt_data.ttf))) :=
  ⟨rfl, rfl, rfl, frame_is_modem_then_battery_map false ideal_float (sample_state 3 2)
    (sample_env 0 0 true 0) rfl rfl rfl⟩

/-! ## The round trip (claim C2) -/

theorem ideal_f64_bits_small : ideal_f64_bits (1 / 2097152) = 4512606826625236992 := by
  have h1 : |(1 / 2097152 : ℚ)| = ((2 : ℕ) : ℚ) ^ (-21 : ℤ) := by
    rw [abs_of_pos (by norm_num)]
    norm_num [zpow_neg]
  have h2 : Int.log 2 |(1 / 2097152 : ℚ)| = -21 := by
    rw [h1, Int.log_zpow (by norm_num)]
  unfold ideal_f64_bits
  rw [if_neg (by norm_num)]
  simp only [h2]
  rw [abs_of_pos (by norm_num)]
  norm_num
  decide

theorem trunc_small : trunc ((1 / 2097152 : ℚ)) = 0 := by
  unfold trunc
  rw [if_pos (by norm_num), Int.floor_eq_iff]
  norm_num

theorem ideal_from_double_accepts (prior : sensor_value) (inp : ℚ)
    (h1 : -2147483648 ≤ inp) (h2 : inp ≤ 2147483647)
    (h3 : -2147483648 ≤ (inp - trunc inp) * 1000000)
    (h4 : (inp - trunc inp) * 1000000 ≤ 2147483647) :
    ideal_float.sensor_value_from_double prior inp =
      (0, ⟨trunc inp, trunc ((inp - trunc inp) * 1000000)⟩) := by
  show ideal_sensor_value_from_double prior inp = _
  unfold ideal_sensor_value_from_double
  rw [if_neg (by rw [not_or, not_lt, gt_iff_lt, not_lt]; exact ⟨h1, h2⟩)]
  simp only
  rw [if_neg (by rw [not_or, not_lt, gt_iff_lt, not_lt]; exact ⟨h3, h4⟩)]

theorem ideal_from_double_refuses (prior : sensor_value) (inp : ℚ) (h : 2147483647 < inp) :
    ideal_float.sensor_value_from_double prior inp = (- ERANGE, prior) := by
  show ideal_sensor_value_from_double prior inp = _
  unfold ideal_sensor_value_from_double
  rw [if_pos (Or.inr h)]

theorem ideal_f64_bits_eq (q : ℚ) : ideal_float.f64_bits q = ideal_f64_bits q := rfl

theorem ideal_to_double_eq (q : ℚ) : ideal_float.to_double q = q := rfl

theorem battery_bits_eq {F D : Type} (fe : FloatEnv F D) (prior : sensor_value) (x : F) :
    battery_bits fe prior x = fe.f64_bits (battery_field fe prior x) % 18446744073709551616 :=
  rfl

theorem input_bits_eq {F D : Type} (fe : FloatEnv F D) (x : F) :
    input_bits fe x = fe.f64_bits (fe.to_double x) % 18446744073709551616 :=
  rfl

theorem battery_field_eq {F D : Type} (fe : FloatEnv F D) (prior : sensor_value) (x : F) :
    battery_field fe prior x =
      fe.sensor_value_to_double (fe.sensor_value_from_double prior (fe.to_double x)).2 :=
  rfl

theorem trunc_eq_of_nonneg (x : ℚ) (a : Int) (h0 : 0 ≤ x) (h1 : (a : ℚ) ≤ x)
    (h2 : x < a + 1) : trunc x = a := by
  unfold trunc
  rw [if_pos h0, Int.floor_eq_iff]
  exact ⟨h1, h2⟩

theorem trunc_eq_of_neg (x : ℚ) (a : Int) (h0 : x < 0) (h1 : (a : ℚ) - 1 < x)
    (h2 : x ≤ a) : trunc x = a := by
  unfold trunc
  rw [if_neg (not_le.mpr h0), Int.ceil_eq_iff]
  exact ⟨h1, h2⟩

theorem ideal_from_double_stores (prior : sensor_value) (x : ℚ) (a b : Int)
    (ha : trunc x = a) (hb : trunc ((x - a) * 1000000) = b)
    (h1 : -2147483648 ≤ x) (h2 : x ≤ 2147483647)
    (h3 : -2147483648 ≤ (x - a) * 1000000) (h4 : (x - a) * 1000000 ≤ 2147483647) :
    ideal_float.sensor_value_from_double prior x = (0, ⟨a, b⟩) := by
  have h := ideal_from_double_accepts prior x h1 h2 (by rw [ha]; exact h3)
    (by rw [ha]; exact h4)
  rw [ha, hb] at h
  exact h

theorem battery_field_ideal (prior v : sensor_value) (x : ℚ) (r : Int)
    (h : ideal_float.sensor_value_from_double prior x = (r, v)) :
    battery_field ideal_float prior x = v.val1 + v.val2 / 1000000 := by
  unfold battery_field
  show ideal_float.sensor_value_to_double (ideal_float.sensor_value_from_double prior x).2 = _
  rw [h]
  rfl

/-- In exact arithmetic a state of charge of `2 ^ -21` reaches `zcbor_float64_put` as `0`:
its millionths are cut off. -/
theorem battery_field_small (prior : sensor_value) :
    battery_field ideal_float prior (1 / 2097152) = 0 := by
  have hv : trunc (((1 / 2097152 : ℚ) - (0 : Int)) * 1000000) = 0 := by
    unfold trunc
    rw [if_pos (by norm_num), Int.floor_eq_iff]
    norm_num
  have h := ideal_from_double_accepts prior (1 / 2097152) (by norm_num) (by norm_num)
    (by rw [trunc_small]; norm_num) (by rw [trunc_small]; norm_num)
  rw [trunc_small, hv] at h
  rw [battery_field_ideal prior _ _ _ h]
  norm_num

/-- In exact arithmetic a time to empty of `3000000000`, which `sensor_value_from_double`
refuses, reaches `zcbor_float64_put` as the number the local held before, since the return
value is not looked at: `12.5` for a local holding 12 and 500000 millionths. -/
theorem battery_field_refused :
    battery_field ideal_float ⟨12, 500000⟩ 3000000000 = 25 / 2 := by
  rw [battery_field_ideal _ _ _ _
    (ideal_from_double_refuses ⟨12, 500000⟩ 3000000000 (by norm_num))]
  norm_num

theorem small_soc_value :
    (get_battery_data ideal_float (sample_state 3 2).fg small_soc_env.gauge).state.batt_data.soc =
      1 / 2097152 := by
  simp [get_battery_data, fuel_gauge_update, small_soc_env, small_soc_gauge]

/-- C2, refuted as stated, in each of its halves.  With `tx_success_counter = 2147483648` the
frame does not decode to the inputs: the `uint32_t` counter reaches the wire through
`int32_t` and is read back as `-2147483648`.  With a state of charge of `2 ^ -21` the frame
does not decode to the inputs either: `SoC` is read back as `0`. -/
theorem roundtrip_fails_for_counter_and_battery :
    (∃ payload,
      (app_sensors_read_and_stream (zcbor_ref false ideal_float.f64_bits) ideal_float
        (sample_state 2147483648 0) (sample_env 0 0 true 0)).published =
        [⟨"sensor", content_type.GOLIOTH_CONTENT_TYPE_CBOR, payload⟩] ∧
      decode payload ≠
        some (telemetry_tree (modem_tree 4012 (-7) 2147483648 0)
          (battery_tree
            (battery_bits ideal_float (sample_env 0 0 true 0).locals.voltage
              (get_battery_data ideal_float (sample_state 2147483648 0).fg
                (sample_env 0 0 true 0).gauge).state.batt_data.voltage)
            (battery_bits ideal_float (sample_env 0 0 true 0).locals.current
              (get_battery_data ideal_float (sample_state 2147483648 0).fg
                (sample_env 0 0 true 0).gauge).state.batt_data.current)
            (battery_bits ideal_float (sample_env 0 0 true 0).locals.soc
              (get_battery_data ideal_float (sample_state 2147483648 0).fg
                (sample_env 0 0 true 0).gauge).state.batt_data.soc)
            (battery_bits ideal_float (sample_env 0 0 true 0).locals.tte
              (get_battery_data ideal_float (sample_state 2147483648 0).fg
                (sample_env 0 0 true 0).gauge).state.batt_data.tte)
            (battery_bits ideal_float (sample_env 0 0 true 0).locals.ttf
              (get_battery_data ideal_float (sample_state 2147483648 0).fg
                (sample_env 0 0 true 0).gauge).state.batt_data.ttf)))) ∧
    (∃ payload,
      (app_sensors_read_and_stream (zcbor_ref false ideal_float.f64_bits) ideal_float
        (sample_state 3 2) small_soc_env).published =
        [⟨"sensor", content_type.GOLIOTH_CONTENT_TYPE_CBOR, payload⟩] ∧
      decode payload ≠
        some (telemetry_tree (modem_tree 4012 (-7) 3 2)
          (battery_tree
            (input_bits ideal_float (get_battery_data ideal_float (sample_state 3 2).fg
              small_soc_env.gauge).state.batt_data.voltage)
            (input_bits ideal_float (get_battery_data ideal_float (sample_state 3 2).fg
              small_soc_env.gauge).state.batt_data.current)
            (input_bits ideal_float (get_battery_data ideal_float (sample_state 3 2).fg
              small_soc_env.gauge).state.batt_data.soc)
            (input_bits ideal_float (get_battery_data ideal_float (sample_state 3 2).fg
              small_soc_env.gauge).state.batt_data.tte)
            (input_bits ideal_float (get_battery_data ideal_float (sample_state 3 2).fg
              small_soc_env.gauge).state.batt_data.ttf)))) := by
  constructor
  · refine ⟨telemetry_frame_bytes false ideal_float (sample_state 2147483648 0)
      (sample_env 0 0 true 0), ?_, ?_⟩
    · rw [ref_cycle_published]; rfl
    · rw [frame_decodes false ideal_float _ _ rfl rfl]
      intro h
      have h3 : to_int32 ((sample_state 2147483648 0).tx_success_counter : Int) =
          (2147483648 : Int) := by
        simp only [telemetry_tree, modem_tree, Option.some.injEq, cbor.map.injEq,
          List.cons.injEq, Prod.mk.injEq, cbor.int.injEq] at h
        exact h.1.2.2.2.1.2
      have h4 : to_int32 ((sample_state 2147483648 0).tx_success_counter : Int) =
          (-2147483648 : Int) := by
        simp [sample_state, to_int32]
      rw [h4] at h3
      exact absurd h3 (by decide)
  · refine ⟨telemetry_frame_bytes false ideal_float (sample_state 3 2) small_soc_env, ?_, ?_⟩
    · rw [ref_cycle_published]; rfl
    · rw [frame_decodes false ideal_float _ _ rfl rfl]
      intro h
      have h3 : battery_bits ideal_float small_soc_env.locals.soc
          (get_battery_data ideal_float (sample_state 3 2).fg small_soc_env.gauge).state.batt_data.soc =
          input_bits ideal_float
          (get_battery_data ideal_float (sample_state 3 2).fg small_soc_env.gauge).state.batt_data.soc := by
        simp only [telemetry_tree, battery_tree, Option.some.injEq, cbor.map.injEq,
          List.cons.injEq, Prod.mk.injEq, cbor.float64.injEq] at h
        exact h.2.1.2.2.2.1.2
      rw [small_soc_value] at h3
      rw [battery_bits_eq, input_bits_eq] at h3
      rw [battery_field_small] at h3
      have h5 : ideal_f64_bits 0 = 0 := by
        unfold ideal_f64_bits
        rw [if_pos rfl]
      rw [ideal_f64_bits_eq, ideal_f64_bits_eq, ideal_to_double_eq, ideal_f64_bits_small, h5]
        at h3
      exact absurd h3 (by decide)

/-- C2 as amended: when both modem reads succeed, the client is connected, the modem values
are `int32_t`, both counters are below `2 ^ 31 = 2147483648` and `sensor_value_from_double`
accepts each of the five battery values (it returns 0 and stores `V`, `I`, `SoC`, `tte`,
`ttf`), the published frame decodes to the map whose four modem integers are the inputs
themselves and whose five battery floats are the binary64 images of what
`sensor_value_to_double` gives for the five stored `sensor_value`s. -/
theorem roundtrip_of_int32_and_converted_battery {F D : Type} (canonical : Bool)
    (fe : FloatEnv F D) (st : app_state F) (env : cycle_env F)
    (hv : env.modem.voltage_err = 0)
    (ht : env.modem.temp_err = 0) (hc : env.connected = true)
    (hvb : -2147483648 ≤ env.modem.modem_voltage ∧ env.modem.modem_voltage < 2147483648)
    (htb : -2147483648 ≤ env.modem.modem_temp ∧ env.modem.modem_temp < 2147483648)
    (hs : st.tx_success_counter < 2147483648) (hf : st.tx_failure_counter < 2147483648)
    (V I SoC tte ttf : sensor_value)
    (hV : fe.sensor_value_from_double env.locals.voltage
      (fe.to_double (get_battery_data fe st.fg env.gauge).state.batt_data.voltage) = (0, V))
    (hI : fe.sensor_value_from_double env.locals.current
      (fe.to_double (get_battery_data fe st.fg env.gauge).state.batt_data.current) = (0, I))
    (hSoC : fe.sensor_value_from_double env.locals.soc
      (fe.to_double (get_battery_data fe st.fg env.gauge).state.batt_data.soc) = (0, SoC))
    (htte : fe.sensor_value_from_double env.locals.tte
      (fe.to_double (get_battery_data fe st.fg env.gauge).state.batt_data.tte) = (0, tte))
    (httf : fe.sensor_value_from_double env.locals.ttf
      (fe.to_double (get_battery_data fe st.fg env.gauge).state.batt_data.ttf) = (0, ttf)) :
    ∃ payload,
      (app_sensors_read_and_stream (zcbor_ref canonical fe.f64_bits) fe st env).published =
        [⟨"sensor", content_type.GOLIOTH_CONTENT_TYPE_CBOR, payload⟩] ∧
      decode payload =
        some (telemetry_tree
          (modem_tree env.modem.modem_voltage env.modem.modem_temp
            st.tx_success_counter st.tx_failure_counter)
          (battery_tree
            (fe.f64_bits (fe.sensor_value_to_double V) % 18446744073709551616)
            (fe.f64_bits (fe.sensor_value_to_double I) % 18446744073709551616)
            (fe.f64_bits (fe.sensor_value_to_double SoC) % 18446744073709551616)
            (fe.f64_bits (fe.sensor_value_to_double tte) % 18446744073709551616)
            (fe.f64_bits (fe.sensor_value_to_double ttf) % 18446744073709551616))) := by
  refine ⟨telemetry_frame_bytes canonical fe st env, ?_, ?_⟩
  · rw [ref_cycle_published, hc]; rfl
  · rw [frame_decodes canonical fe st env hv ht, to_int32_id _ hvb.1 hvb.2,
      to_int32_id _ htb.1 htb.2, to_int32_id _ (by omega) (by omega),
      to_int32_id _ (by omega) (by omega)]
    simp only [battery_bits_eq, battery_field_eq, hV, hI, hSoC, htte, httf]

theorem sample_battery_values :
    (get_battery_data ideal_float (sample_state 3 2).fg
      (sample_env 0 0 true 0).gauge).state.batt_data =
      ⟨37 / 10, -1 / 2, 25, 55, 1000, 0⟩ := by
  simp [get_battery_data, fuel_gauge_update, get_sensor_value, sample_env, sample_gauge,
    sample_channels, ideal_float]
  norm_num

/-- C2 as amended, at a concrete cycle in exact arithmetic: modem 4012 mV and -7 degrees,
counters 3 and 2, battery 3.7 V, -0.5 A, 55 %, 1000 s and 0 s, all of which
`sensor_value_from_double` accepts. -/
theorem roundtrip_of_int32_and_converted_battery_witness :
    ∃ payload,
      (app_sensors_read_and_stream (zcbor_ref true ideal_float.f64_bits) ideal_float
        (sample_state 3 2) (sample_env 0 0 true 0)).published =
        [⟨"sensor", content_type.GOLIOTH_CONTENT_TYPE_CBOR, payload⟩] ∧
      decode payload =
        some (telemetry_tree (modem_tree 4012 (-7) (3 : Nat) (2 : Nat))
          (battery_tree
            (ideal_float.f64_bits (ideal_float.sensor_value_to_double ⟨3, 700000⟩) %
              18446744073709551616)
            (ideal_float.f64_bits (ideal_float.sensor_value_to_double ⟨0, -500000⟩) %
              18446744073709551616)
            (ideal_float.f64_bits (ideal_float.sensor_value_to_double ⟨55, 0⟩) %
              18446744073709551616)
            (ideal_float.f64_bits (ideal_float.sensor_value_to_double ⟨1000, 0⟩) %
              18446744073709551616)
            (ideal_float.f64_bits (ideal_float.sensor_value_to_double ⟨0, 0⟩) %
              18446744073709551616))) :=
  roundtrip_of_int32_and_converted_battery true ideal_float (sample_state 3 2)
    (sample_env 0 0 true 0) rfl rfl rfl (by decide) (by decide) (by decide) (by decide)
    ⟨3, 700000⟩ ⟨0, -500000⟩ ⟨55, 0⟩ ⟨1000, 0⟩ ⟨0, 0⟩
    (by
      rw [sample_battery_values, ideal_to_double_eq]
      exact ideal_from_double_stores _ _ 3 700000
        (trunc_eq_of_nonneg _ _ (by norm_num) (by norm_num) (by norm_num))
        (trunc_eq_of_nonneg _ _ (by norm_num) (by norm_num) (by norm_num))
        (by norm_num) (by norm_num) (by norm_num) (by norm_num))
    (by
      rw [sample_battery_values, ideal_to_double_eq]
      exact ideal_from_double_stores _ _ 0 (-500000)
        (trunc_eq_of_neg _ _ (by norm_num) (by norm_num) (by norm_num))
        (trunc_eq_of_neg _ _ (by norm_num) (by norm_num) (by norm_num))
        (by norm_num) (by norm_num) (by norm_num) (by norm_num))
    (by
      rw [sample_battery_values, ideal_to_double_eq]
      exact ideal_from_double_stores _ _ 55 0
        (trunc_eq_of_nonneg _ _ (by norm_num) (by norm_num) (by norm_num))
        (trunc_eq_of_nonneg _ _ (by norm_num) (by norm_num) (by norm_num))
        (by norm_num) (by norm_num) (by norm_num) (by norm_num))
    (by
      rw [sample_battery_values, ideal_to_double_eq]
      exact ideal_from_double_stores _ _ 1000 0
        (trunc_eq_of_nonneg _ _ (by norm_num) (by norm_num) (by norm_num))
        (trunc_eq_of_nonneg _ _ (by norm_num) (by norm_num) (by norm_num))
        (by norm_num) (by norm_num) (by norm_num) (by norm_num))
    (by
      rw [sample_battery_values, ideal_to_double_eq]
      exact ideal_from_double_stores _ _ 0 0
        (trunc_eq_of_nonneg _ _ (by norm_num) (by norm_num) (by norm_num))
        (trunc_eq_of_nonneg _ _ (by norm_num) (by norm_num) (by norm_num))
        (by norm_num) (by norm_num) (by norm_num) (by norm_num))

/-! ## The size of the frame (claim C8) -/

theorem fuel_gauge_errors_known {F D : Type} (fe : FloatEnv F D) (fg : fuel_gauge_state F)
    (g : gauge_sample F) :
    ∀ e ∈ (get_battery_data fe fg g).errors, e = "Error: Could not fetch sensor samples" := by
  unfold get_battery_data fuel_gauge_update
  split_ifs <;> simp

theorem modem_errors_known (m : modem_reading) :
    ∀ e ∈ modem_errors m,
      e = "Modem voltage read failed, err: %d\n" ∨ e = "Modem Temp read failed, err: %d\n" := by
  unfold modem_errors
  split_ifs <;> simp

theorem ref_cycle_no_encode_failure {F D : Type} (canonical : Bool) (fe : FloatEnv F D)
    (st : app_state F) (env : cycle_env F) :
    ∀ e ∈ (app_sensors_read_and_stream (zcbor_ref canonical fe.f64_bits) fe st env).errors,
      e ∉ zcbor_failure_logs := by
  rw [ref_cycle_errors]
  intro e he
  simp only [List.mem_append] at he
  rcases he with (he | he) | he
  · rcases modem_errors_known _ e he with rfl | rfl <;> decide
  · rw [fuel_gauge_errors_known fe _ _ e he]; decide
  · split_ifs at he
    · simp only [List.mem_singleton] at he
      subst he; decide
    · simp at he

/-- C8: for all inputs, in either build mode of the reference encoder, the frame a cycle
publishes is the whole content of `cbor_buf` up to the write position and is at most 124
bytes long, 124 is below the 256 bytes of the buffer, and no encode step fails: none of the
`LOG_ERR` lines that report a failed encode step is written. -/
theorem frame_fits_buffer {F D : Type} (canonical : Bool) (fe : FloatEnv F D)
    (st : app_state F) (env : cycle_env F) :
    (∀ p ∈ (app_sensors_read_and_stream (zcbor_ref canonical fe.f64_bits) fe st env).published,
      p.payload.length ≤ 124) ∧
    124 ≤ CBOR_BUF_SIZE ∧
    (∀ e ∈ (app_sensors_read_and_stream (zcbor_ref canonical fe.f64_bits) fe st env).errors,
      e ∉ zcbor_failure_logs) := by
  refine ⟨?_, by decide, ?_⟩
  · rw [ref_cycle_published]
    intro p hp
    split_ifs at hp
    · simp only [List.mem_singleton] at hp
      subst hp
      exact telemetry_frame_length_le canonical fe st env
    · simp at hp
  · exact ref_cycle_no_encode_failure canonical fe st env

/-! ## Control flow of one cycle, for every encoder (claims C3 to C7) -/

theorem cycle_counters {σ F D : Type} (z : Zcbor σ D) (fe : FloatEnv F D) (st : app_state F)
    (env : cycle_env F) :
    ((app_sensors_read_and_stream z fe st env).published = [] ∧
      (app_sensors_read_and_stream z fe st env).state.tx_success_counter =
        st.tx_success_counter ∧
      (app_sensors_read_and_stream z fe st env).state.tx_failure_counter =
        st.tx_failure_counter) ∨
    (env.connected = true ∧
      (app_sensors_read_and_stream z fe st env).published.length = 1 ∧
      ((env.stream_err = 0 ∧
          (app_sensors_read_and_stream z fe st env).state.tx_success_counter =
            u32_incr st.tx_success_counter ∧
          (app_sensors_read_and_stream z fe st env).state.tx_failure_counter =
            st.tx_failure_counter) ∨
        (env.stream_err ≠ 0 ∧
          (app_sensors_read_and_stream z fe st env).state.tx_failure_counter =
            u32_incr st.tx_failure_counter ∧
          (app_sensors_read_and_stream z fe st env).state.tx_success_counter =
            st.tx_success_counter))) := by
  unfold app_sensors_read_and_stream
  simp only
  split_ifs <;> simp_all

/-- C5: when `golioth_client_is_connected` returns false, a cycle makes no publish call and
leaves both counters as they were, whatever the encoder and the sensors do. -/
theorem disconnected_cycle_publishes_nothing {σ F D : Type} (z : Zcbor σ D)
    (fe : FloatEnv F D) (st : app_state F) (env : cycle_env F) (h : env.connected = false) :
    (app_sensors_read_and_stream z fe st env).published = [] ∧
    (app_sensors_read_and_stream z fe st env).state.tx_success_counter =
      st.tx_success_counter ∧
    (app_sensors_read_and_stream z fe st env).state.tx_failure_counter =
      st.tx_failure_counter := by
  rcases cycle_counters z fe st env with h1 | h1
  · exact h1
  · rw [h] at h1
    exact absurd h1.1 (by decide)

/-- C5, at a concrete cycle with the client disconnected. -/
theorem disconnected_cycle_publishes_nothing_witness :
    (sample_env 0 0 false 0).connected = false ∧
    (app_sensors_read_and_stream (zcbor_ref false ideal_float.f64_bits) ideal_float
      (sample_state 3 2) (sample_env 0 0 false 0)).published = [] ∧
    (app_sensors_read_and_stream (zcbor_ref false ideal_float.f64_bits) ideal_float
      (sample_state 3 2) (sample_env 0 0 false 0)).state.tx_success_counter = 3 ∧
    (app_sensors_read_and_stream (zcbor_ref false ideal_float.f64_bits) ideal_float
      (sample_state 3 2) (sample_env 0 0 false 0)).state.tx_failure_counter = 2 :=
  ⟨rfl, disconnected_cycle_publishes_nothing (zcbor_ref false ideal_float.f64_bits) ideal_float
    (sample_state 3 2) (sample_env 0 0 false 0) rfl⟩

/-- C4, refuted as stated: the modem voltage read fails with -5, the fuel gauge fetch fails
with -5 and the client is connected; the publish call is made. -/
theorem sensor_fault_still_publishes :
    (app_sensors_read_and_stream (zcbor_ref false ideal_float.f64_bits) ideal_float
      (sample_state 0 0) (sample_env (-5) (-5) true 0)).published ≠ [] := by
  rw [ref_cycle_published]
  decide

/-- C4 as amended: a sensor fault does not abort the cycle.  With the reference encoder, in
a cycle where a modem read fails or the fuel gauge fetch fails, the publish call is made
exactly when the client is connected; a failed modem read makes `read_modem_data` return
`GOLIOTH_ERR_FAIL` with nothing written, so that the frame has no `"modem"` entry; a failed
fetch makes `fuel_gauge_update` return `-EIO` and the frame carries the battery data of the
cycle before. -/
theorem sensor_fault_does_not_abort {F D : Type} (canonical : Bool) (fe : FloatEnv F D)
    (st : app_state F) (env : cycle_env F)
    (_hfault : ¬ (env.modem.voltage_err = 0 ∧ env.modem.temp_err = 0) ∨ env.gauge.fetch < 0) :
    (app_sensors_read_and_stream (zcbor_ref canonical fe.f64_bits) fe st env).published =
      (if env.connected then
        [⟨"sensor", content_type.GOLIOTH_CONTENT_TYPE_CBOR,
          telemetry_frame_bytes canonical fe st env⟩]
      else []) ∧
    (¬ (env.modem.voltage_err = 0 ∧ env.modem.temp_err = 0) →
      (∀ zse : zcbor_state,
        read_modem_data (zcbor_ref canonical fe.f64_bits) st env.modem zse =
          ⟨GOLIOTH_ERR_FAIL, zse, modem_errors env.modem⟩) ∧
      modem_entries canonical st env.modem = []) ∧
    (env.gauge.fetch < 0 →
      (fuel_gauge_update fe st.fg env.gauge st.fg.vbus_connected).ret = - EIO ∧
      (get_battery_data fe st.fg env.gauge).state = st.fg) := by
  refine ⟨ref_cycle_published canonical fe st env, ?_, ?_⟩
  · intro hm
    exact ⟨fun zse => read_modem_data_fail _ st env.modem zse hm, by simp [modem_entries, hm]⟩
  · intro hf
    simp [get_battery_data, fuel_gauge_update, hf]

/-- C4 as amended, at a concrete cycle: the modem voltage read fails with -5, the fetch fails
with -5, the client is connected. -/
theorem sensor_fault_does_not_abort_witness :
    (app_sensors_read_and_stream (zcbor_ref false ideal_float.f64_bits) ideal_float
      (sample_state 0 0) (sample_env (-5) (-5) true 0)).published.length = 1 := by
  rw [(sensor_fault_does_not_abort false ideal_float (sample_state 0 0)
    (sample_env (-5) (-5) true 0) (Or.inr (by decide))).1]
  rfl

/-- C6, refuted as stated: delivered with `GOLIOTH_OK`, the completion callback leaves
`tx_success_counter` at 0. -/
theorem completion_callback_counts_nothing :
    (async_error_handler (sample_state 0 0) GOLIOTH_OK).1.tx_success_counter ≠
      (sample_state 0 0).tx_success_counter + 1 := by
  decide

/-- C6 as amended: the counters follow the return value of `golioth_stream_set_async`.  A
cycle makes at most one publish call; when that call returns 0, `tx_success_counter` goes
up by one modulo `2 ^ 32` and `tx_failure_counter` stays; when it returns anything else,
`tx_failure_counter` goes up by one modulo `2 ^ 32` and `tx_success_counter` stays; a cycle
without a publish call changes neither; and the completion callback `async_error_handler`
changes nothing, whatever status it is delivered with. -/
theorem counters_follow_publish_return {σ F D : Type} (z : Zcbor σ D) (fe : FloatEnv F D)
    (st : app_state F) (env : cycle_env F) (status : golioth_status) :
    (async_error_handler st status).1 = st ∧
    (app_sensors_read_and_stream z fe st env).published.length ≤ 1 ∧
    (app_sensors_read_and_stream z fe st env).state.tx_success_counter =
      (if (app_sensors_read_and_stream z fe st env).published.length = 1 ∧
          env.stream_err = 0 then
        u32_incr st.tx_success_counter else st.tx_success_counter) ∧
    (app_sensors_read_and_stream z fe st env).state.tx_failure_counter =
      (if (app_sensors_read_and_stream z fe st env).published.length = 1 ∧
          env.stream_err ≠ 0 then
        u32_incr st.tx_failure_counter else st.tx_failure_counter) := by
  refine ⟨by unfold async_error_handler; split_ifs <;> rfl, ?_⟩
  rcases cycle_counters z fe st env with ⟨h1, h2, h3⟩ | ⟨_, h1, ⟨h2, h3, h4⟩ | ⟨h2, h3, h4⟩⟩
  · simp [h1, h2, h3]
  · simp [h1, h2, h3, h4]
  · simp [h1, h2, h3, h4]

theorem run_event_counters {σ F D : Type} (z : Zcbor σ D) (fe : FloatEnv F D)
    (st : app_state F) (e : event F)
    (h : st.tx_success_counter + st.tx_failure_counter + (run_event z fe st e).2.length <
      4294967296) :
    (run_event z fe st e).1.tx_success_counter + (run_event z fe st e).1.tx_failure_counter =
      st.tx_success_counter + st.tx_failure_counter + (run_event z fe st e).2.length := by
  cases e with
  | completion status =>
    simp only [run_event]
    unfold async_error_handler
    split_ifs <;> simp
  | cycle env =>
    simp only [run_event] at h ⊢
    rcases cycle_counters z fe st env with ⟨h1, h2, h3⟩ | ⟨_, h1, ⟨_, h3, h4⟩ | ⟨_, h3, h4⟩⟩
    · simp [h1, h2, h3]
    · rw [h1] at h
      rw [h1, h3, h4]
      unfold u32_incr
      omega
    · rw [h1] at h
      rw [h1, h3, h4]
      unfold u32_incr
      omega

theorem run_counters {σ F D : Type} (z : Zcbor σ D) (fe : FloatEnv F D)
    (evs : List (event F)) (st : app_state F)
    (h : st.tx_success_counter + st.tx_failure_counter + (run z fe st evs).2.length <
      4294967296) :
    (run z fe st evs).1.tx_success_counter + (run z fe st evs).1.tx_failure_counter =
      st.tx_success_counter + st.tx_failure_counter + (run z fe st evs).2.length := by
  induction evs generalizing st with
  | nil => simp [run]
  | cons e es ih =>
    simp only [run, List.length_append] at h ⊢
    have h1 := run_event_counters z fe st e (by omega)
    have h2 := ih (run_event z fe st e).1 (by omega)
    omega

theorem run_publishes_le {σ F D : Type} (z : Zcbor σ D) (fe : FloatEnv F D)
    (evs : List (event F)) (st : app_state F) : (run z fe st evs).2.length ≤ evs.length := by
  induction evs generalizing st with
  | nil => simp [run]
  | cons e es ih =>
    have h1 : (run_event z fe st e).2.length ≤ 1 := by
      cases e with
      | completion s => simp [run_event]
      | cycle env =>
        simp only [run_event]
        rcases cycle_counters z fe st env with ⟨h1, _⟩ | ⟨_, h1, _⟩
        · simp [h1]
        · omega
    have h2 := ih (run_event z fe st e).1
    simp only [run, List.length_append, List.length_cons]
    omega

/-- C7: starting from both counters at 0, after any sequence of telemetry cycles and
completion deliveries (in particular one where every attempt is completed once) in which `N`
publish attempts were made, `N < 2 ^ 32 = 4294967296`, the counters add up to `N`. -/
theorem counters_add_up_to_attempts {σ F D : Type} (z : Zcbor σ D) (fe : FloatEnv F D)
    (st : app_state F) (evs : List (event F)) (hs : st.tx_success_counter = 0)
    (hf : st.tx_failure_counter = 0) (hN : (run z fe st evs).2.length < 4294967296) :
    (run z fe st evs).1.tx_success_counter + (run z fe st evs).1.tx_failure_counter =
      (run z fe st evs).2.length := by
  have := run_counters z fe evs st (by omega)
  omega

/-- C7, at a concrete run: a cycle whose publish returns 0, its completion, a cycle with the
client disconnected, a cycle whose publish returns -11, and its completion with a failure
status. -/
theorem counters_add_up_to_attempts_witness :
    (run (zcbor_ref false ideal_float.f64_bits) ideal_float (sample_state 0 0)
      [event.cycle (sample_env 0 0 true 0), event.completion GOLIOTH_OK,
       event.cycle (sample_env 0 0 false 0), event.cycle (sample_env 0 0 true (-11)),
       event.completion GOLIOTH_ERR_FAIL]).1.tx_success_counter +
    (run (zcbor_ref false ideal_float.f64_bits) ideal_float (sample_state 0 0)
      [event.cycle (sample_env 0 0 true 0), event.completion GOLIOTH_OK,
       event.cycle (sample_env 0 0 false 0), event.cycle (sample_env 0 0 true (-11)),
       event.completion GOLIOTH_ERR_FAIL]).1.tx_failure_counter =
    (run (zcbor_ref false ideal_float.f64_bits) ideal_float (sample_state 0 0)
      [event.cycle (sample_env 0 0 true 0), event.completion GOLIOTH_OK,
       event.cycle (sample_env 0 0 false 0), event.cycle (sample_env 0 0 true (-11)),
       event.completion GOLIOTH_ERR_FAIL]).2.length :=
  counters_add_up_to_attempts (zcbor_ref false ideal_float.f64_bits) ideal_float
    (sample_state 0 0) _ rfl rfl
    (lt_of_le_of_lt (run_publishes_le _ _ _ _) (by decide))

/-! ## The reset reason (claims C9 and C12) -/

theorem reset_reason_flags_spec (pin dog off dif sreq lockup ctrlap : Bool) :
    reset_reason_trim (reset_reason_concat_flags pin dog off dif sreq lockup ctrlap) =
      reset_reason_spec (cause_names pin dog off dif sreq lockup ctrlap) := by
  cases pin <;> cases dog <;> cases off <;> cases dif <;> cases sreq <;> cases lockup <;>
    cases ctrlap <;> decide

theorem reset_reason_flags_length (pin dog off dif sreq lockup ctrlap : Bool) :
    (reset_reason_concat_flags pin dog off dif sreq lockup ctrlap).length ≤ 118 ∧
    ((reset_reason_concat_flags pin dog off dif sreq lockup ctrlap).length ≠ 0 →
      3 ≤ (reset_reason_concat_flags pin dog off dif sreq lockup ctrlap).length) := by
  cases pin <;> cases dog <;> cases off <;> cases dif <;> cases sreq <;> cases lockup <;>
    cases ctrlap <;> decide

/-- C9: for every reason value and every choice of the seven masks, `reset_reason_str_get`
writes `power-on reset` when no mask bit is set and otherwise the names of the causes whose
mask bit is set, in the order PIN reset, watchdog, wakeup from power-off, debug interface
wakeup, software, CPU lockup, control access port, joined by ` | ` with no leading or
trailing separator.  With the masks of the nRF91 series: reason 0 gives `power-on reset`,
the watchdog bit alone gives `watchdog`, the pin-reset and software-reset bits give
`PIN reset | software`. -/
theorem reset_reason_is_joined_cause_names :
    (∀ (mk : reset_masks) (reason : Nat),
      reset_reason_str_get mk reason =
        reset_reason_spec
          (cause_names (bit_set reason mk.RESETPIN) (bit_set reason mk.DOG)
            (bit_set reason mk.OFF) (bit_set reason mk.DIF) (bit_set reason mk.SREQ)
            (bit_set reason mk.LOCKUP) (bit_set reason mk.CTRLAP))) ∧
    reset_reason_str_get nrf91_masks 0 = "power-on reset".toList ∧
    reset_reason_str_get nrf91_masks 2 = "watchdog".toList ∧
    reset_reason_str_get nrf91_masks (1 + 65536) = "PIN reset | software".toList := by
  refine ⟨fun mk reason => reset_reason_flags_spec _ _ _ _ _ _ _, ?_, ?_, ?_⟩ <;> decide

/-- C12: for every reason value and every choice of the seven masks, the string that
`reset_reason_str_get` builds before trimming has at most 118 characters, so that with its
terminator it takes at most 119 of the 128 bytes `print_reset_reason` provides; it is empty
or has at least 3 characters, so that `len - 3` is an index into it; and the string left
after trimming fits as well. -/
theorem reset_reason_fits_buffer (mk : reset_masks) (reason : Nat) :
    (reset_reason_concat mk reason).length ≤ 118 ∧
    118 + 1 ≤ RESET_REASON_STR_SIZE ∧
    ((reset_reason_concat mk reason).length = 0 ∨ 3 ≤ (reset_reason_concat mk reason).length) ∧
    (reset_reason_str_get mk reason).length + 1 ≤ RESET_REASON_STR_SIZE := by
  have h := reset_reason_flags_length (bit_set reason mk.RESETPIN) (bit_set reason mk.DOG)
    (bit_set reason mk.OFF) (bit_set reason mk.DIF) (bit_set reason mk.SREQ)
    (bit_set reason mk.LOCKUP) (bit_set reason mk.CTRLAP)
  have hl : (reset_reason_concat mk reason).length ≤ 118 := h.1
  refine ⟨hl, by decide, ?_, ?_⟩
  · by_cases h0 : (reset_reason_concat mk reason).length = 0
    · exact Or.inl h0
    · exact Or.inr (h.2 h0)
  · unfold reset_reason_str_get reset_reason_trim
    simp only
    split_ifs
    · decide
    · simp only [List.length_take, RESET_REASON_STR_SIZE]
      omega

/-! ## The fuel gauge (claims C10 and C13) -/

/-- C10: a `fuel_gauge_update` call whose sample fetch succeeds returns 0 and calls
`nrf_fuel_gauge_process` exactly once, with the voltage, current and temperature just read
from the charger, `delta = (now - ref_time) / 1000` and the `vbus_connected` flag passed in;
`now - ref_time` is not negative when the uptime has not gone back; afterwards `ref_time` is
`now`. -/
theorem process_gets_fetched_values_and_delta {F D : Type} (fe : FloatEnv F D)
    (st : fuel_gauge_state F) (inp : gauge_sample F) (vbus_connected : Bool)
    (hf : 0 ≤ inp.fetch) (ht : st.ref_time ≤ inp.now) :
    (fuel_gauge_update fe st inp vbus_connected).ret = 0 ∧
    process_calls (fuel_gauge_update fe st inp vbus_connected).calls =
      [(get_sensor_value fe inp.channel_get SENSOR_CHAN_GAUGE_VOLTAGE,
        get_sensor_value fe inp.channel_get SENSOR_CHAN_GAUGE_AVG_CURRENT,
        get_sensor_value fe inp.channel_get SENSOR_CHAN_GAUGE_TEMP,
        fe.div (fe.of_int (inp.now - st.ref_time)) (fe.of_int 1000),
        vbus_connected)] ∧
    0 ≤ inp.now - st.ref_time ∧
    (fuel_gauge_update fe st inp vbus_connected).state.ref_time = inp.now := by
  have h : ¬ inp.fetch < 0 := by omega
  unfold fuel_gauge_update
  simp only [h, if_false, process_calls]
  exact ⟨trivial, trivial, by omega, trivial⟩

/-- C10, at the two calls of the claim: 2000 ms apart, with voltage 3.7, current -0.5,
temperature 25.0 and vbus false, in exact arithmetic; the second call invokes the process
function with exactly (3.7, -0.5, 25.0, 2.0, false). -/
theorem process_gets_fetched_values_and_delta_witness :
    process_calls (fuel_gauge_update ideal_float
      (fuel_gauge_update ideal_float (sample_fg 0) (sample_gauge 0 1000) false).state
      (sample_gauge 0 3000) false).calls =
      [((37 / 10 : ℚ), (-1 / 2 : ℚ), (25 : ℚ), (2 : ℚ), false)] := by
  have h := (process_gets_fetched_values_and_delta ideal_float
    (fuel_gauge_update ideal_float (sample_fg 0) (sample_gauge 0 1000) false).state
    (sample_gauge 0 3000) false (by decide) (by decide)).2.1
  rw [h]
  norm_num [get_sensor_value, sample_gauge, sample_channels, ideal_float, fuel_gauge_update,
    sample_fg]

/-- C13, where the code breaks it: the PMIC is not ready, `npm1300_fuel_gauge_init` returns
`-ENODEV = -19`, `main` stores true in `fuel_gauge_initialized`, calls
`lte_lc_connect_async` and goes on to the telemetry loop. -/
theorem main_proceeds_when_pmic_not_ready :
    (npm1300_fuel_gauge_init ideal_float (sample_fg 0) (sample_init false true 0)).ret = -19 ∧
    (npm1300_fuel_gauge_init ideal_float (sample_fg 0)
      (sample_init false true 0)).state.initialized = (sample_fg 0).initialized ∧
    main ideal_float (sample_fg 0) (sample_init false true 0) 0 =
      ⟨true, true, main_outcome.telemetry_loop⟩ := by
  refine ⟨by decide, by decide, by decide⟩

/-- The part of C13 the code keeps: when the attribute read fails, `npm1300_fuel_gauge_init`
returns 0, `main` stores false in `fuel_gauge_initialized` and returns 0 without calling
`lte_lc_connect_async`; and whenever `main` stores false it returns at once. -/
theorem main_stops_when_init_returns_zero {F D : Type} (fe : FloatEnv F D)
    (st : fuel_gauge_state F) (env : init_env F) (lte_err : Int)
    (h : (npm1300_fuel_gauge_init fe st env).ret = 0) :
    main fe st env lte_err = ⟨false, false, main_outcome.returned 0⟩ := by
  simp [main, h]

/-! ## The location sampler (claim C11) -/

/-- C11, where the code breaks it: in the first tick `cellular_info_get` returns no record
and `golioth_location_finish` reports `GOLIOTH_ERR_NULL`; the thread function returns, and
of the three ticks on offer it makes only this one, without a resolution call.  The same
happens for another finish failure. -/
theorem empty_finish_ends_sampler :
    location_tracking_thread_fn
      [sample_tick 0 GOLIOTH_ERR_NULL GOLIOTH_OK, sample_tick 2 GOLIOTH_OK GOLIOTH_OK,
       sample_tick 2 GOLIOTH_OK GOLIOTH_OK] =
      [⟨tick_end.returned, false⟩] ∧
    location_tracking_thread_fn
      [sample_tick 2 GOLIOTH_ERR_FAIL GOLIOTH_OK, sample_tick 2 GOLIOTH_OK GOLIOTH_OK] =
      [⟨tick_end.returned, false⟩] := by
  constructor <;> decide

/-- The part of C11 the code keeps: a tick in which the cellular-info fetch or an append
fails, or in which finish succeeds (whatever the resolution call returns), does not end the
sampler. -/
theorem other_ticks_keep_sampler_running (e : tick_env)
    (h : cellular_get_and_encode_info e ≠ 0 ∨ e.finish_status = GOLIOTH_OK) :
    (location_tick e).ending ≠ tick_end.returned := by
  unfold location_tick
  rcases h with h | h
  · simp [h]
  · split_ifs <;> simp_all

end Telemetry
